import Mathlib

/-!
PicoFCMNotifier: credential store, persisted configuration, provisioning state
machine and commands.

A shallow embedding of `src/src/PicFCMNotifier.cpp` and `src/include/PicoFCMNotifier.h`.

* `char` buffers are lists of bytes; a buffer declared `char b[N + 1]` is a list of
  length `N + 1`.  The C string held in a buffer (or behind a `const char *`) is the
  run of bytes before the first NUL (`cstr`).
* The object `PicoFCMNotifierClass` is a record of its data members; every member
  function is a pure function from the object (and the flash file) to the new object.
* The flash file `/wifi_config.json` is `ConfigFile`: missing, present but rejected by
  `deserializeJson`, or present and holding a document.  A document is represented by
  what the accessors used in the source can observe of it.
-/

namespace PicoFCM

/-- One `char` / `uint8_t`. -/
abbrev Byte := Fin 256

def MAX_WIFI_NETWORKS : Nat := 5
def MAX_SSID_LENGTH : Nat := 32
def MAX_PASSWORD_LENGTH : Nat := 64
def MAX_FCM_URL_LENGTH : Nat := 256
def MAX_FCM_TOKEN_LENGTH : Nat := 256

/-! ## C string primitives -/

/-- The C string found at a `char` pointer: the bytes before the first NUL. -/
def cstr (p : List Byte) : List Byte := p.takeWhile (fun b => b ≠ 0)

/-- The length `strlen(p)` of the C string at `p`. -/
def strlen (p : List Byte) : Nat := (cstr p).length

/-- The call `strncpy(dst, src, n)`: exactly `n` bytes of `dst` are written, the string at `src`
cut to `n` bytes and padded with NULs up to `n`; the bytes of `dst` from `n` on are kept. -/
def strncpy (dst src : List Byte) (n : Nat) : List Byte :=
  (cstr src ++ List.replicate n 0).take n ++ dst.drop n

/-- The call `memset(buf, 0, size)` over a whole buffer of `size` bytes. -/
def zeroBuffer (size : Nat) : List Byte := List.replicate size 0

/-- The assignment `buf[0] = 0`. -/
def setFirstNul (buf : List Byte) : List Byte := buf.set 0 0

/-! ## Data model -/

/-- The enum `PicoWiFiProvisioningStatus` of the header. -/
inductive PicoWiFiProvisioningStatus where
  | PROVISION_IDLE
  | PROVISION_STARTED
  | PROVISION_COMPLETE
  | PROVISION_FAILED
  | PROVISION_CONNECTING
  | PROVISION_CONNECTED
  deriving DecidableEq, Repr

/-- The struct `WiFiNetworkConfig`: `char ssid[33]; char password[65]; bool enabled`. -/
structure WiFiNetworkConfig where
  ssid : List Byte
  password : List Byte
  enabled : Bool
  deriving DecidableEq, Repr

/-- A slot after `memset` of both buffers and `enabled = false`. -/
def blankNetwork : WiFiNetworkConfig :=
  { ssid := zeroBuffer (MAX_SSID_LENGTH + 1),
    password := zeroBuffer (MAX_PASSWORD_LENGTH + 1),
    enabled := false }

/-- The data members of `PicoFCMNotifierClass`.  Function pointers and the device
pointer are `none` for `nullptr` and `some id` otherwise. -/
structure PicoFCMNotifierClass where
  _connectedDevice : Option Nat
  _status : PicoWiFiProvisioningStatus
  _networks : List WiFiNetworkConfig
  _networkCount : Nat
  _connectionStartTime : Nat
  _statusCallback : Option Nat
  _wifiStatusCallback : Option Nat
  _bleConnectionStateCallback : Option Nat
  _ssidCharHandle : Nat
  _passwordCharHandle : Nat
  _commandCharHandle : Nat
  _pairingStatusCharHandle : Nat
  _fcmUrlCharHandle : Nat
  _fcmTokenCharHandle : Nat
  _allowProvisioningWhenConnected : Bool
  _receivedSSID : List Byte
  _receivedPassword : List Byte
  _receivedFcmUrl : List Byte
  _receivedFcmToken : List Byte
  _fcmUrl : List Byte
  _fcmToken : List Byte
  deriving DecidableEq, Repr

/-- The constructor `PicoFCMNotifierClass::PicoFCMNotifierClass()`. -/
def construct : PicoFCMNotifierClass :=
  { _connectedDevice := none,
    _status := .PROVISION_IDLE,
    _networks := (List.range MAX_WIFI_NETWORKS).map (fun _ => blankNetwork),
    _networkCount := 0,
    _connectionStartTime := 0,
    _statusCallback := none,
    _wifiStatusCallback := none,
    _bleConnectionStateCallback := none,
    _ssidCharHandle := 0,
    _passwordCharHandle := 0,
    _commandCharHandle := 0,
    _pairingStatusCharHandle := 0,
    _fcmUrlCharHandle := 0,
    _fcmTokenCharHandle := 0,
    _allowProvisioningWhenConnected := false,
    _receivedSSID := zeroBuffer (MAX_SSID_LENGTH + 1),
    _receivedPassword := zeroBuffer (MAX_PASSWORD_LENGTH + 1),
    _receivedFcmUrl := zeroBuffer (MAX_FCM_URL_LENGTH + 1),
    _receivedFcmToken := zeroBuffer (MAX_FCM_TOKEN_LENGTH + 1),
    _fcmUrl := zeroBuffer (MAX_FCM_URL_LENGTH + 1),
    _fcmToken := zeroBuffer (MAX_FCM_TOKEN_LENGTH + 1) }

/-- The slot `_networks[i]`. -/
def PicoFCMNotifierClass.net (s : PicoFCMNotifierClass) (i : Nat) : WiFiNetworkConfig :=
  s._networks.getD i blankNetwork

/-- A buffer declared `char b[cap + 1]` whose last byte is NUL.  The last byte is only
ever written by `memset`, so this is what keeps every stored string terminated. -/
def BufferOk (cap : Nat) (b : List Byte) : Prop :=
  b.length = cap + 1 ∧ b.drop cap = [0]

instance (cap : Nat) (b : List Byte) : Decidable (BufferOk cap b) :=
  inferInstanceAs (Decidable (_ ∧ _))

/-- Both buffers of a slot have their declared size and a final NUL. -/
def SlotOk (n : WiFiNetworkConfig) : Prop :=
  BufferOk MAX_SSID_LENGTH n.ssid ∧ BufferOk MAX_PASSWORD_LENGTH n.password

instance (n : WiFiNetworkConfig) : Decidable (SlotOk n) :=
  inferInstanceAs (Decidable (_ ∧ _))

/-- The shape of the object that the declared array sizes give, together with the final
NUL of every buffer and `_networkCount <= MAX_WIFI_NETWORKS`. -/
def WellFormed (s : PicoFCMNotifierClass) : Prop :=
  s._networks.length = MAX_WIFI_NETWORKS ∧
  s._networkCount ≤ MAX_WIFI_NETWORKS ∧
  (∀ n ∈ s._networks, SlotOk n) ∧
  BufferOk MAX_SSID_LENGTH s._receivedSSID ∧
  BufferOk MAX_PASSWORD_LENGTH s._receivedPassword ∧
  BufferOk MAX_FCM_URL_LENGTH s._receivedFcmUrl ∧
  BufferOk MAX_FCM_TOKEN_LENGTH s._receivedFcmToken ∧
  BufferOk MAX_FCM_URL_LENGTH s._fcmUrl ∧
  BufferOk MAX_FCM_TOKEN_LENGTH s._fcmToken

instance (s : PicoFCMNotifierClass) : Decidable (WellFormed s) :=
  inferInstanceAs (Decidable (_ ∧ _))

/-! ## The persisted record -/

/-- One element of the `networks` array as the loader reads it:
`network["ssid"]` and `network["password"]` converted to `const char *` (`none` when the
key is absent or not a string, or the element is not an object), and
`network["enabled"]` when it is a boolean (`none` otherwise, where `| true` applies). -/
structure JsonNetwork where
  ssid : Option (List Byte)
  password : Option (List Byte)
  enabled : Option Bool
  deriving DecidableEq, Repr

/-- A `JsonDocument` as the source reads and builds it: `doc["fcm_url"]` and
`doc["fcm_token"]` as `const char *`, and the elements of `doc["networks"]` as an array
(no elements when it is absent or not an array). -/
structure JsonDocument where
  fcm_url : Option (List Byte)
  fcm_token : Option (List Byte)
  networks : List JsonNetwork
  deriving DecidableEq, Repr

/-- The file `WIFI_CONFIG_FILE` on LittleFS. `corrupt` is any content for which
`deserializeJson` reports an error (an empty file included). -/
inductive ConfigFile where
  | missing
  | corrupt
  | record (doc : JsonDocument)
  deriving DecidableEq, Repr

/-! ## Credential store operations -/

/-- The search loop of `saveNetwork`: the first `i < _networkCount` with
`strcmp(_networks[i].ssid, ssid) == 0`. -/
def existingIndex (s : PicoFCMNotifierClass) (ssid : List Byte) : Option Nat :=
  (List.range s._networkCount).find? (fun i => decide (cstr (s.net i).ssid = cstr ssid))

/-- The member function `PicoFCMNotifierClass::saveNetwork`. A null `ssid` is `none`. -/
def saveNetwork (s : PicoFCMNotifierClass) (ssid : Option (List Byte)) (password : List Byte) :
    Bool × PicoFCMNotifierClass :=
  match ssid with
  | none => (false, s)
  | some ssid =>
    if strlen ssid = 0 then (false, s)
    else
      match existingIndex s ssid with
      | some i =>
        (true, { s with
          _networks := s._networks.set i
            { ssid := (s.net i).ssid,
              password := strncpy (s.net i).password password MAX_PASSWORD_LENGTH,
              enabled := true } })
      | none =>
        if s._networkCount < MAX_WIFI_NETWORKS then
          (true, { s with
            _networks := s._networks.set s._networkCount
              { ssid := strncpy (s.net s._networkCount).ssid ssid MAX_SSID_LENGTH,
                password := strncpy (s.net s._networkCount).password password MAX_PASSWORD_LENGTH,
                enabled := true },
            _networkCount := s._networkCount + 1 })
        else (false, s)

/-- The member function `PicoFCMNotifierClass::clearNetworks`. `removeOk` is what
`LittleFS.remove` returns when it is called; the file is gone exactly when it returns
true. -/
def clearNetworks (s : PicoFCMNotifierClass) (file : ConfigFile) (removeOk : Bool) :
    Bool × PicoFCMNotifierClass × ConfigFile :=
  let s1 : PicoFCMNotifierClass :=
    { s with
      _networks := (List.range MAX_WIFI_NETWORKS).foldl
        (fun nets i => nets.set i blankNetwork) s._networks,
      _networkCount := 0,
      _fcmUrl := zeroBuffer (MAX_FCM_URL_LENGTH + 1),
      _fcmToken := zeroBuffer (MAX_FCM_TOKEN_LENGTH + 1) }
  match file with
  | .missing => (true, s1, .missing)
  | f => if removeOk then (true, s1, .missing) else (false, s1, f)

/-- The body of the loop `for (JsonObject network : networksArray)` of
`loadConfigFromFlash`, run over the remaining elements. -/
def loadNetworks : List JsonNetwork → PicoFCMNotifierClass → PicoFCMNotifierClass
  | [], s => s
  | network :: rest, s =>
    if s._networkCount ≥ MAX_WIFI_NETWORKS then s
    else
      match network.ssid with
      | none => loadNetworks rest s
      | some ssid =>
        loadNetworks rest
          { s with
            _networks := s._networks.set s._networkCount
              { ssid := strncpy (s.net s._networkCount).ssid ssid MAX_SSID_LENGTH,
                password :=
                  match network.password with
                  | some password =>
                    strncpy (s.net s._networkCount).password password MAX_PASSWORD_LENGTH
                  | none => setFirstNul (s.net s._networkCount).password,
                enabled := network.enabled.getD true },
            _networkCount := s._networkCount + 1 }

/-- The member function `PicoFCMNotifierClass::loadConfigFromFlash`. `openOk` tells whether
`LittleFS.open(WIFI_CONFIG_FILE, "r")` gives a file. -/
def loadConfigFromFlash (s : PicoFCMNotifierClass) (file : ConfigFile) (openOk : Bool) :
    Bool × PicoFCMNotifierClass :=
  match file with
  | .missing => (false, s)
  | present =>
    if !openOk then (false, s)
    else
    match present with
    | .missing => (false, s)
    | .corrupt => (false, s)
    | .record doc =>
      (true, loadNetworks doc.networks
        { s with
          _fcmUrl :=
            match doc.fcm_url with
            | some fcm_url => strncpy s._fcmUrl fcm_url MAX_FCM_URL_LENGTH
            | none => s._fcmUrl,
          _fcmToken :=
            match doc.fcm_token with
            | some fcm_token => strncpy s._fcmToken fcm_token MAX_FCM_TOKEN_LENGTH
            | none => s._fcmToken,
          _networkCount := 0 })

/-- The document built by `saveConfigToFlash`. -/
def buildDocument (s : PicoFCMNotifierClass) : JsonDocument :=
  { fcm_url := if strlen s._receivedFcmUrl > 0 then some (cstr s._receivedFcmUrl) else none,
    fcm_token :=
      if strlen s._receivedFcmToken > 0 then some (cstr s._receivedFcmToken) else none,
    networks := (List.range s._networkCount).map (fun i =>
      { ssid := some (cstr (s.net i).ssid),
        password := some (cstr (s.net i).password),
        enabled := some (s.net i).enabled }) }

/-- The member function `PicoFCMNotifierClass::saveConfigToFlash`. `openOk` tells whether
`LittleFS.open(WIFI_CONFIG_FILE, "w")` gives a file (opening for writing empties the
file), `written` whether `serializeJson` wrote a non-zero number of bytes. -/
def saveConfigToFlash (s : PicoFCMNotifierClass) (file : ConfigFile) (openOk written : Bool) :
    Bool × PicoFCMNotifierClass × ConfigFile :=
  let doc := buildDocument s
  if !openOk then (false, s, file)
  else if !written then (false, s, .corrupt)
  else
    (true,
     { s with
       _fcmUrl :=
         if strlen s._receivedFcmUrl > 0 then
           strncpy s._fcmUrl s._receivedFcmUrl MAX_FCM_URL_LENGTH
         else s._fcmUrl,
       _fcmToken :=
         if strlen s._receivedFcmToken > 0 then
           strncpy s._fcmToken s._receivedFcmToken MAX_FCM_TOKEN_LENGTH
         else s._fcmToken },
     .record doc)

/-! ## Observations used in the statements -/

/-- The stored credential of a slot as strings: `(ssid, password, enabled)`. -/
def credential (n : WiFiNetworkConfig) : List Byte × List Byte × Bool :=
  (cstr n.ssid, cstr n.password, n.enabled)

/-- The meaningful entries of the store, in order: the first `_networkCount` slots. -/
def entries (s : PicoFCMNotifierClass) : List (List Byte × List Byte × Bool) :=
  (s._networks.take s._networkCount).map credential

/-- What one element of the record's `networks` array says the loaded entry is: nothing
when it has no ssid, else the ssid cut to 32 bytes, the password cut to 64 bytes (empty
when absent) and the boolean `enabled` (true when absent). -/
def loadedCredential (n : JsonNetwork) : Option (List Byte × List Byte × Bool) :=
  n.ssid.map (fun ssid =>
    ((cstr ssid).take MAX_SSID_LENGTH,
     (match n.password with
      | some password => (cstr password).take MAX_PASSWORD_LENGTH
      | none => []),
     n.enabled.getD true))

/-- The entries a record describes: its first (at most 5) network objects that have an
ssid, in record order. -/
def recordEntries (doc : JsonDocument) : List (List Byte × List Byte × Bool) :=
  (doc.networks.filterMap loadedCredential).take MAX_WIFI_NETWORKS

/-- The object when the loop of `loadConfigFromFlash` starts: the endpoint fields of the
record copied, `_networkCount` reset. -/
def loadStart (s : PicoFCMNotifierClass) (doc : JsonDocument) : PicoFCMNotifierClass :=
  { s with
    _fcmUrl :=
      match doc.fcm_url with
      | some fcm_url => strncpy s._fcmUrl fcm_url MAX_FCM_URL_LENGTH
      | none => s._fcmUrl,
    _fcmToken :=
      match doc.fcm_token with
      | some fcm_token => strncpy s._fcmToken fcm_token MAX_FCM_TOKEN_LENGTH
      | none => s._fcmToken,
    _networkCount := 0 }

/-- No two of the first `_networkCount` entries hold the same stored name. -/
def NamesDistinct (s : PicoFCMNotifierClass) : Prop :=
  ∀ i j, i < j → j < s._networkCount → cstr (s.net i).ssid ≠ cstr (s.net j).ssid

/-- A sequence of `saveNetwork(ssid, password)` calls, run in order. -/
def saveAll (calls : List (List Byte × List Byte)) (s : PicoFCMNotifierClass) :
    PicoFCMNotifierClass :=
  calls.foldl (fun acc call => (saveNetwork acc (some call.1) call.2).2) s

/-! ## Concrete stores and records used as examples -/

/-- Five networks "N1" .. "N5" saved one after the other into the constructed store. -/
def fiveNetworks : PicoFCMNotifierClass :=
  (saveNetwork (saveNetwork (saveNetwork (saveNetwork (saveNetwork construct
    (some [78, 49]) [97]).2 (some [78, 50]) [98]).2 (some [78, 51]) [99]).2
    (some [78, 52]) [100]).2 (some [78, 53]) [101]).2

/-- An ssid of 33 bytes, one more than `MAX_SSID_LENGTH`: 33 times the letter `A`. -/
def longSsid : List Byte := List.replicate 33 65

/-- The store after `saveNetwork(longSsid, "a")` and then `saveNetwork(longSsid, "b")` on
the constructed object. -/
def longSsidTwice : PicoFCMNotifierClass :=
  (saveNetwork (saveNetwork construct (some longSsid) [97]).2 (some longSsid) [98]).2

/-- A record listing six networks "N1" .. "N6", the last two without `enabled`. -/
def sixNetworkRecord : JsonDocument :=
  { fcm_url := none,
    fcm_token := none,
    networks :=
      [ { ssid := some [78, 49], password := some [97], enabled := some true },
        { ssid := some [78, 50], password := some [98], enabled := some false },
        { ssid := some [78, 51], password := none, enabled := some true },
        { ssid := some [78, 52], password := some [100], enabled := some true },
        { ssid := some [78, 53], password := some [101], enabled := none },
        { ssid := some [78, 54], password := some [102], enabled := none } ] }

/-- A record whose only network has the empty string as ssid, password "p" and
`enabled` false. -/
def emptyNameRecord : JsonDocument :=
  { fcm_url := none,
    fcm_token := none,
    networks := [ { ssid := some [], password := some [112], enabled := some false } ] }

/-- The constructed object after loading `emptyNameRecord`. -/
def emptyNameStore : PicoFCMNotifierClass :=
  (loadConfigFromFlash construct (.record emptyNameRecord) true).2

/-- The constructed object after `saveNetwork("Home", "pw1")`. -/
def homeStore : PicoFCMNotifierClass :=
  (saveNetwork construct (some [72, 111, 109, 101]) [112, 119, 49]).2

/-- A pending url "u1" and a pending token "t1" written into the staging buffers of the
store holding "Home". -/
def homeStorePending : PicoFCMNotifierClass :=
  { homeStore with
    _receivedFcmUrl := [117, 49] ++ zeroBuffer (MAX_FCM_URL_LENGTH - 1),
    _receivedFcmToken := [116, 49] ++ zeroBuffer (MAX_FCM_TOKEN_LENGTH - 1) }

/-- The file written by `saveConfigToFlash` on `homeStorePending`: url "u1", token "t1"
and the network "Home". -/
def provisionedFile : ConfigFile :=
  (saveConfigToFlash homeStorePending .missing true true).2.2

/-- The object after a restart with `provisionedFile` on flash: constructed, then loaded.
Its staging buffers are empty. -/
def restartedStore : PicoFCMNotifierClass :=
  (loadConfigFromFlash construct provisionedFile true).2

/-- A record with one network "N1" and no endpoint field. -/
def networkOnlyRecord : JsonDocument :=
  { fcm_url := none,
    fcm_token := none,
    networks := [ { ssid := some [78, 49], password := some [97], enabled := some true } ] }

/-- A record with `fcm_url` "u2", no `fcm_token` and one network "N1". -/
def urlOnlyRecord : JsonDocument :=
  { fcm_url := some [117, 50],
    fcm_token := none,
    networks := [ { ssid := some [78, 49], password := some [97], enabled := some true } ] }

/-! ## Provisioning state machine, commands and notification

The calls into the vendor stacks (WiFi, BTstack, BLENotify, LittleFS, HTTPClient) and the
invocations of the registered callbacks are recorded, in program order, as a list of
`Event`s.  What those stacks return is an input: `Env`.  Writes to `Serial` are not
recorded.  Callbacks that BTstack delivers from inside `BTstack.loop()` are separate calls
of `handleGattWrite`. -/

/-- The status codes of the WiFi library (`wl_status_t`, declared by the Arduino core). -/
inductive wl_status_t where
  | WL_IDLE_STATUS
  | WL_NO_SSID_AVAIL
  | WL_SCAN_COMPLETED
  | WL_CONNECTED
  | WL_CONNECT_FAILED
  | WL_CONNECTION_LOST
  | WL_DISCONNECTED
  | WL_NO_SHIELD
  deriving DecidableEq, Repr

/-- One external call or callback invocation, or one of the assignments
`_status = newStatus` and `_connectionStartTime = millis()`. -/
inductive Event where
  | btstackLoop
  | bleNotifyUpdate
  | statusAssigned (status : PicoWiFiProvisioningStatus)
  | startTimeAssigned (time : Nat)
  | statusCallback (callback : Nat) (status : PicoWiFiProvisioningStatus)
  | wifiStatusCallback (callback : Nat) (status : wl_status_t)
  | wifiDisconnect
  | wifiBegin (ssid password : List Byte)
  | stopAdvertising
  | bleDisconnect (device : Nat)
  | fsOpenWrite
  | fsWrite
  | fsExists
  | fsRemove
  | subscriptionChange (handle : Nat) (subscribed : Bool)
  | notify (handle : Nat) (value : Nat)
  | httpPost (url token title body : List Byte)
  | httpGetString
  | httpEnd
  deriving DecidableEq, Repr

/-- What the environment answers during one call into the library. -/
structure Env where
  /-- The value of `WiFi.status()`. -/
  wifiStatus : wl_status_t
  /-- The value of `millis()`, a 32-bit counter. -/
  millis : Nat
  /-- Whether `LittleFS.open(WIFI_CONFIG_FILE, ...)` gives a file. -/
  openOk : Bool
  /-- Whether `serializeJson` wrote a non-zero number of bytes. -/
  written : Bool
  /-- The value of `LittleFS.remove(WIFI_CONFIG_FILE)`. -/
  removeOk : Bool
  /-- Whether `BLESecure.getPairingStatus() == PAIRING_COMPLETE`. -/
  pairingComplete : Bool
  /-- The value of `BLENotify.isSubscribed(_pairingStatusCharHandle)`. -/
  subscribed : Bool
  /-- The value of `http.POST(jsonPayload)`: an HTTP status, or a negative error code. -/
  httpResponseCode : Int
  deriving DecidableEq, Repr

def WIFI_CONNECT_TIMEOUT_MS : Nat := 15000

def CMD_SAVE_NETWORK : Nat := 1
def CMD_CONNECT : Nat := 2
def CMD_CLEAR_NETWORKS : Nat := 3
def CMD_GET_STATUS : Nat := 4
def CMD_DISCONNECT : Nat := 5
def CMD_START_SCAN : Nat := 6
def CMD_GET_SCAN_RESULTS : Nat := 7

def PAIRING_STATUS_NOT_PAIRED : Nat := 0
def PAIRING_STATUS_PAIRED : Nat := 1

/-- Subtraction of `unsigned long` values (32 bits on this target). -/
def sub32 (a b : Nat) : Nat := (a % 4294967296 + 4294967296 - b % 4294967296) % 4294967296

/-- The member function `PicoFCMNotifierClass::setStatus`. The callback receives the
member `_status`, read after the assignment. -/
def setStatus (s : PicoFCMNotifierClass) (newStatus : PicoWiFiProvisioningStatus) :
    PicoFCMNotifierClass × List Event :=
  if s._status ≠ newStatus then
    let s1 : PicoFCMNotifierClass := { s with _status := newStatus }
    (s1, .statusAssigned newStatus ::
      (match s1._statusCallback with
       | some callback => [.statusCallback callback s1._status]
       | none => []))
  else (s, [])

/-- The member function `PicoFCMNotifierClass::setStatusCallback`. -/
def setStatusCallback (s : PicoFCMNotifierClass) (callback : Option Nat) :
    PicoFCMNotifierClass :=
  { s with _statusCallback := callback }

/-- The member function `PicoFCMNotifierClass::loop`. `lastReported` is the function's
static variable `lastReportedWiFiStatusToApp`, initially `WL_NO_SHIELD`. -/
def loop (s : PicoFCMNotifierClass) (lastReported : wl_status_t) (env : Env) :
    PicoFCMNotifierClass × wl_status_t × List Event :=
  let currentWiFiStatus := env.wifiStatus
  let polled : PicoFCMNotifierClass × List Event :=
    if s._status = .PROVISION_CONNECTING then
      let currentTime := env.millis
      if currentWiFiStatus = .WL_CONNECTED then
        setStatus s .PROVISION_CONNECTED
      else if currentWiFiStatus = .WL_CONNECT_FAILED ∨ currentWiFiStatus = .WL_NO_SSID_AVAIL then
        setStatus s .PROVISION_FAILED
      else if sub32 currentTime s._connectionStartTime > WIFI_CONNECT_TIMEOUT_MS then
        ((setStatus s .PROVISION_FAILED).1, (setStatus s .PROVISION_FAILED).2 ++ [.wifiDisconnect])
      else (s, [])
    else (s, [])
  let reported : List Event :=
    if currentWiFiStatus ≠ lastReported then
      match polled.1._wifiStatusCallback with
      | some callback => [.wifiStatusCallback callback currentWiFiStatus]
      | none => []
    else []
  (polled.1, currentWiFiStatus, [.btstackLoop, .bleNotifyUpdate] ++ polled.2 ++ reported)

/-- The member function `PicoFCMNotifierClass::connectToNetwork`. A null `ssid` is `none`. -/
def connectToNetwork (s : PicoFCMNotifierClass) (ssid : Option (List Byte))
    (password : List Byte) (env : Env) : PicoFCMNotifierClass × List Event :=
  match ssid with
  | none => (s, [])
  | some ssid =>
    if strlen ssid = 0 then (s, [])
    else
      let s1 : PicoFCMNotifierClass := (setStatus s .PROVISION_CONNECTING).1
      let peer : List Event :=
        match s1._connectedDevice with
        | some device => [.bleDisconnect device]
        | none => []
      let drop : List Event :=
        if env.wifiStatus ≠ .WL_DISCONNECTED then [.wifiDisconnect] else []
      ({ s1 with _connectionStartTime := env.millis },
       (setStatus s .PROVISION_CONNECTING).2 ++ [.stopAdvertising] ++ peer ++ drop ++
         [.wifiBegin (cstr ssid) (cstr password), .startTimeAssigned env.millis])

/-- The member function `PicoFCMNotifierClass::connectToStoredNetworks`. -/
def connectToStoredNetworks (s : PicoFCMNotifierClass) (env : Env) :
    Bool × PicoFCMNotifierClass × List Event :=
  if s._status = .PROVISION_CONNECTING ∨ s._status = .PROVISION_CONNECTED then (false, s, [])
  else if s._networkCount = 0 then (false, s, [])
  else
    match (List.range s._networkCount).find? (fun i => (s.net i).enabled) with
    | some i =>
      let r := connectToNetwork s (some (s.net i).ssid) (s.net i).password env
      (decide (r.1._status = .PROVISION_CONNECTING), r.1, r.2)
    | none => (false, s, [])

/-- The LittleFS calls made by `saveConfigToFlash`. -/
def saveConfigToFlashCalls (openOk : Bool) : List Event :=
  if openOk then [.fsOpenWrite, .fsWrite] else [.fsOpenWrite]

/-- The LittleFS calls made by `clearNetworks`. -/
def clearNetworksCalls (file : ConfigFile) : List Event :=
  match file with
  | .missing => [.fsExists]
  | _ => [.fsExists, .fsRemove]

/-- The member function `PicoFCMNotifierClass::processCommand`. -/
def processCommand (s : PicoFCMNotifierClass) (file : ConfigFile) (command : Nat) (env : Env) :
    PicoFCMNotifierClass × ConfigFile × List Event :=
  if command = CMD_SAVE_NETWORK then
    if strlen s._receivedSSID > 0 then
      let saved := (saveNetwork s (some s._receivedSSID) s._receivedPassword).2
      let flashed := saveConfigToFlash saved file env.openOk env.written
      (flashed.2.1, flashed.2.2, saveConfigToFlashCalls env.openOk)
    else (s, file, [])
  else if command = CMD_CONNECT then
    if strlen s._receivedSSID > 0 then
      let r := connectToNetwork s (some s._receivedSSID) s._receivedPassword env
      (r.1, file, r.2)
    else
      let r := connectToStoredNetworks s env
      (r.2.1, file, r.2.2)
  else if command = CMD_CLEAR_NETWORKS then
    let r := clearNetworks s file env.removeOk
    (r.2.1, r.2.2, clearNetworksCalls file)
  else if command = CMD_DISCONNECT then
    let r := setStatus s .PROVISION_IDLE
    (r.1, file, .wifiDisconnect :: r.2)
  else (s, file, [])

/-- The call `memcpy(dst, src, n)` for `n` no larger than either buffer. -/
def memcpy (dst src : List Byte) (n : Nat) : List Byte := src.take n ++ dst.drop n

/-- The member function `PicoFCMNotifierClass::updatePairingStatusCharacteristic`. -/
def updatePairingStatusCharacteristic (s : PicoFCMNotifierClass) (isPaired : Bool) (env : Env) :
    List Event :=
  let pairingStatus := if isPaired then PAIRING_STATUS_PAIRED else PAIRING_STATUS_NOT_PAIRED
  if env.subscribed then [.notify s._pairingStatusCharHandle pairingStatus] else []

/-- The member function `PicoFCMNotifierClass::handleGattWrite`. `buffer_size` is the
length of `buffer`; the result starts with the returned `int`. -/
def handleGattWrite (s : PicoFCMNotifierClass) (file : ConfigFile) (characteristic_id : Nat)
    (buffer : List Byte) (env : Env) : Int × PicoFCMNotifierClass × ConfigFile × List Event :=
  let buffer_size := buffer.length
  let written : PicoFCMNotifierClass × ConfigFile × List Event :=
    if characteristic_id = s._ssidCharHandle then
      let copyLen := min buffer_size MAX_SSID_LENGTH
      ({ s with _receivedSSID := memcpy (zeroBuffer (MAX_SSID_LENGTH + 1)) buffer copyLen }, file, [])
    else if characteristic_id = s._passwordCharHandle then
      let copyLen := min buffer_size MAX_PASSWORD_LENGTH
      ({ s with _receivedPassword := memcpy (zeroBuffer (MAX_PASSWORD_LENGTH + 1)) buffer copyLen }, file, [])
    else if characteristic_id = s._commandCharHandle ∧ buffer_size ≥ 1 then
      processCommand s file (buffer.getD 0 0).val env
    else if characteristic_id = s._fcmUrlCharHandle then
      let copyLen := min buffer_size MAX_FCM_URL_LENGTH
      ({ s with _receivedFcmUrl := memcpy (zeroBuffer (MAX_FCM_URL_LENGTH + 1)) buffer copyLen }, file, [])
    else if characteristic_id = s._fcmTokenCharHandle then
      let copyLen := min buffer_size MAX_FCM_TOKEN_LENGTH
      ({ s with _receivedFcmToken := memcpy (zeroBuffer (MAX_FCM_TOKEN_LENGTH + 1)) buffer copyLen }, file, [])
    else (s, file, [])
  let s1 := written.1
  let cccd : List Event :=
    if buffer_size = 2 then
      let char_value_handle := (characteristic_id + 65536 - 1) % 65536
      let cccd_value := ((buffer.getD 1 0).val * 256 + (buffer.getD 0 0).val) % 65536
      if char_value_handle = s1._pairingStatusCharHandle then
        if cccd_value = 1 then
          .subscriptionChange s1._pairingStatusCharHandle true ::
            updatePairingStatusCharacteristic s1
              (s1._connectedDevice.isSome && env.pairingComplete) env
        else if cccd_value = 0 then
          [.subscriptionChange s1._pairingStatusCharHandle false]
        else []
      else []
    else []
  (0, s1, written.2.1, written.2.2 ++ cccd)

/-- The member function `PicoFCMNotifierClass::sendNotification`. -/
def sendNotification (s : PicoFCMNotifierClass) (title body : List Byte) (env : Env) :
    Bool × List Event :=
  if env.wifiStatus ≠ .WL_CONNECTED then (false, [])
  else if strlen s._fcmUrl = 0 ∨ strlen s._fcmToken = 0 then (false, [])
  else
    (decide (env.httpResponseCode = 200),
     [.httpPost (cstr s._fcmUrl) (cstr s._fcmToken) (cstr title) (cstr body)] ++
       (if env.httpResponseCode > 0 then [.httpGetString] else []) ++ [.httpEnd])

/-! ## Observations on event lists -/

/-- Whether the event is the assignment `_status = newStatus`. -/
def Event.isStatusAssigned : Event → Bool
  | .statusAssigned _ => true
  | _ => false

/-- Whether the event is an invocation of the registered status callback. -/
def Event.isStatusCallback : Event → Bool
  | .statusCallback _ _ => true
  | _ => false

/-- Whether the event is a call of `WiFi.begin`. -/
def Event.isWifiBegin : Event → Bool
  | .wifiBegin _ _ => true
  | _ => false

/-- Whether the event is a call of `http.POST`. -/
def Event.isHttpPost : Event → Bool
  | .httpPost _ _ _ _ => true
  | _ => false

/-- An environment in which the network is idle, every storage call succeeds and the
clock reads `now`. -/
def idleEnv (now : Nat) : Env :=
  { wifiStatus := .WL_IDLE_STATUS, millis := now, openOk := true, written := true,
    removeOk := true, pairingComplete := false, subscribed := false, httpResponseCode := 200 }

/-- The store holding "Home" while a connection attempt started at time 0 is under way,
with status callback 7 registered. -/
def connectingStore : PicoFCMNotifierClass :=
  { homeStore with _status := .PROVISION_CONNECTING, _statusCallback := some 7 }

/-- The last step of `loop`: the WiFi status callback, invoked when the status differs
from the one last reported. -/
def wifiReport (callback : Option Nat) (lastReported current : wl_status_t) : List Event :=
  if current ≠ lastReported then
    match callback with
    | some callback => [.wifiStatusCallback callback current]
    | none => []
  else []




/-- The restarted store (endpoint "u1", "t1" loaded) with status callback 7 registered
first and status callback 9 registered after it. -/
def observedStore : PicoFCMNotifierClass :=
  setStatusCallback (setStatusCallback restartedStore (some 7)) (some 9)

/-- An environment in which the network is connected and the POST answers `code`. -/
def onlineEnv (code : Int) : Env :=
  { idleEnv 0 with wifiStatus := .WL_CONNECTED, httpResponseCode := code }

/-- The store holding "Home", enabled, with status Connected and no pending name. -/
def connectedStore : PicoFCMNotifierClass :=
  { homeStore with _status := .PROVISION_CONNECTED }

/-- A record whose first network has the empty string as ssid and is enabled, followed by
the network "N1". -/
def emptyNameFirstRecord : JsonDocument :=
  { fcm_url := none,
    fcm_token := none,
    networks :=
      [ { ssid := some [], password := some [112], enabled := some true },
        { ssid := some [78, 49], password := some [97], enabled := some true } ] }

/-- The constructed object (status Idle) after loading `emptyNameFirstRecord`. -/
def emptyNameFirstStore : PicoFCMNotifierClass :=
  (loadConfigFromFlash construct (.record emptyNameFirstRecord) true).2

/-- The store with an attempt under way since time 0 and the pending name "A" in the
SSID staging buffer. -/
def connectingPending : PicoFCMNotifierClass :=
  { connectingStore with
    _receivedSSID := [65] ++ zeroBuffer MAX_SSID_LENGTH }

/-- The store holding "Home" with status Failed and the pending name "A", pending
password "b". -/
def failedPending : PicoFCMNotifierClass :=
  { homeStore with
    _status := .PROVISION_FAILED,
    _receivedSSID := [65] ++ zeroBuffer MAX_SSID_LENGTH,
    _receivedPassword := [98] ++ zeroBuffer MAX_PASSWORD_LENGTH }



/-- The store holding "Home" with the pending name "A" and pending password "b" in the
staging buffers, status Idle, callback 7 registered. -/
def idlePending : PicoFCMNotifierClass :=
  { homeStore with
    _statusCallback := some 7,
    _receivedSSID := [65] ++ zeroBuffer MAX_SSID_LENGTH,
    _receivedPassword := [98] ++ zeroBuffer MAX_PASSWORD_LENGTH }

/-- The constructed object with the six characteristic handles set to 3, 5, 7, 9, 12, 14,
as `setupBLEService` receives them from the BLE stack, and the store of `idlePending`. -/
def serviceStore : PicoFCMNotifierClass :=
  { idlePending with
    _ssidCharHandle := 3, _passwordCharHandle := 5, _commandCharHandle := 7,
    _pairingStatusCharHandle := 9, _fcmUrlCharHandle := 12, _fcmTokenCharHandle := 14 }

/-- The six characteristic handles are pairwise distinct. -/
def HandlesDistinct (s : PicoFCMNotifierClass) : Prop :=
  [s._ssidCharHandle, s._passwordCharHandle, s._commandCharHandle,
   s._pairingStatusCharHandle, s._fcmUrlCharHandle, s._fcmTokenCharHandle].Nodup

instance (s : PicoFCMNotifierClass) : Decidable (HandlesDistinct s) :=
  inferInstanceAs (Decidable (List.Nodup _))

/-- The content of a staging buffer of capacity `cap` after a write of `buffer`: its first
`min n cap` bytes, then zero bytes up to the size `cap + 1` of the buffer. -/
def staged (cap : Nat) (buffer : List Byte) : List Byte :=
  buffer.take (min buffer.length cap) ++ List.replicate (cap + 1 - min buffer.length cap) 0

/-- The full store of five networks with the pending name "N6", pending password "x" and
pending url "u1" in the staging buffers. -/
def fullPending : PicoFCMNotifierClass :=
  { fiveNetworks with
    _receivedSSID := [78, 54] ++ zeroBuffer (MAX_SSID_LENGTH - 1),
    _receivedPassword := [120] ++ zeroBuffer MAX_PASSWORD_LENGTH,
    _receivedFcmUrl := [117, 49] ++ zeroBuffer (MAX_FCM_URL_LENGTH - 1) }

/-- The file holding the record of the five networks, written when no endpoint field was
pending. -/
def fullFile : ConfigFile :=
  (saveConfigToFlash fiveNetworks .missing true true).2.2

/-- The store of `serviceStore` (handles 3, 5, 7, 9, 12, 14) whose SSID staging buffer
holds "OldNetworkName". -/
def staleStaging : PicoFCMNotifierClass :=
  { serviceStore with
    _receivedSSID :=
      [79, 108, 100, 78, 101, 116, 119, 111, 114, 107, 78, 97, 109, 101] ++
        zeroBuffer (MAX_SSID_LENGTH - 13) }

/-- The store holding "Home" in status Idle with status callback 7 registered and the BLE
peer 1 associated. -/
def pairedStore : PicoFCMNotifierClass :=
  { homeStore with _statusCallback := some 7, _connectedDevice := some 1 }

/-- The store with an attempt under way whose start time 4294967000 is 296 ms before the
32-bit millisecond counter wraps. -/
def wrapStore : PicoFCMNotifierClass :=
  { connectingStore with _connectionStartTime := 4294967000 }





/-! ## Facts about the C string primitives -/

theorem cstr_ne_zero {p : List Byte} {b : Byte} (h : b ∈ cstr p) : b ≠ 0 := by
  have := List.mem_takeWhile_imp h
  simpa using this

theorem cstr_cstr (p : List Byte) : cstr (cstr p) = cstr p := by
  unfold cstr
  exact List.takeWhile_idem

theorem cstr_append_nul (a rest : List Byte) (h : ∀ b ∈ a, b ≠ 0) :
    cstr (a ++ 0 :: rest) = a := by
  unfold cstr
  rw [List.takeWhile_append_of_pos (by simpa using h)]
  simp

theorem cstr_take (p : List Byte) (n : Nat) : cstr ((cstr p).take n) = (cstr p).take n := by
  unfold cstr
  rw [List.takeWhile_eq_self_iff]
  intro x hx
  have hx2 : x ∈ cstr p := List.mem_of_mem_take hx
  simpa using cstr_ne_zero hx2

theorem bufferOk_split {cap : Nat} {b : List Byte} (h : BufferOk cap b) :
    b = b.take cap ++ [0] := by
  have := List.take_append_drop cap b
  rw [h.2] at this
  exact this.symm

theorem strncpy_eq {cap : Nat} {dst : List Byte} (src : List Byte) (h : BufferOk cap dst) :
    strncpy dst src cap = (cstr src ++ List.replicate cap 0).take cap ++ [0] := by
  unfold strncpy
  rw [h.2]

theorem bufferOk_strncpy {cap : Nat} {dst : List Byte} (src : List Byte)
    (h : BufferOk cap dst) : BufferOk cap (strncpy dst src cap) := by
  rw [strncpy_eq src h]
  have hl : ((cstr src ++ List.replicate cap 0).take cap).length = cap := by
    simp [List.length_take]
  constructor
  · simp [hl]
  · rw [List.drop_append_of_le_length (by omega)]
    rw [List.drop_of_length_le (by omega)]
    rfl

theorem cstr_strncpy {cap : Nat} {dst : List Byte} (src : List Byte) (h : BufferOk cap dst) :
    cstr (strncpy dst src cap) = (cstr src).take cap := by
  rw [strncpy_eq src h]
  by_cases hc : cap ≤ (cstr src).length
  · rw [List.take_append_of_le_length hc]
    apply cstr_append_nul
    intro b hb
    exact cstr_ne_zero (List.mem_of_mem_take hb)
  · have hlt : (cstr src).length < cap := by omega
    rw [List.take_append_eq_append_take, List.take_of_length_le (by omega)]
    rw [List.take_replicate, List.append_assoc]
    have : List.replicate (min (cap - (cstr src).length) cap) (0 : Byte) ++ [0]
        = 0 :: List.replicate (min (cap - (cstr src).length) cap) 0 := by
      rw [← List.replicate_succ, List.replicate_succ']
    rw [this]
    exact cstr_append_nul _ _ (fun b hb => cstr_ne_zero hb)

theorem cstr_append_nul_length (l : List Byte) : (cstr (l ++ [0])).length ≤ l.length := by
  induction l with
  | nil => simp [cstr]
  | cons x xs ih =>
    unfold cstr at *
    rw [List.cons_append, List.takeWhile_cons]
    split
    · simpa using ih
    · simp

theorem cstr_length_le {cap : Nat} {b : List Byte} (h : BufferOk cap b) :
    (cstr b).length ≤ cap := by
  rw [bufferOk_split h]
  exact le_trans (cstr_append_nul_length _) (by simp)

theorem take_cap_cstr {cap : Nat} {b : List Byte} (h : BufferOk cap b) :
    (cstr b).take cap = cstr b :=
  List.take_of_length_le (cstr_length_le h)

theorem bufferOk_zeroBuffer (cap : Nat) : BufferOk cap (zeroBuffer (cap + 1)) := by
  unfold BufferOk zeroBuffer
  simp

theorem cstr_zeroBuffer (n : Nat) : cstr (zeroBuffer n) = [] := by
  unfold cstr zeroBuffer
  cases n <;> simp [List.replicate_succ]

theorem bufferOk_setFirstNul {cap : Nat} {b : List Byte} (hc : 0 < cap) (h : BufferOk cap b) :
    BufferOk cap (setFirstNul b) := by
  unfold BufferOk setFirstNul at *
  obtain ⟨h1, h2⟩ := h
  refine ⟨by simp [h1], ?_⟩
  cases b with
  | nil => simp at h1
  | cons x xs =>
    cases cap with
    | zero => omega
    | succ k => simpa using h2

theorem cstr_setFirstNul {b : List Byte} (h : b ≠ []) : cstr (setFirstNul b) = [] := by
  cases b with
  | nil => exact absurd rfl h
  | cons x xs => simp [setFirstNul, cstr]

/-! ## Facts about `saveNetwork` -/

theorem existingIndex_eq_some {s : PicoFCMNotifierClass} {ssid : List Byte} {i : Nat} :
    existingIndex s ssid = some i ↔
      cstr (s.net i).ssid = cstr ssid ∧ i < s._networkCount ∧
        ∀ j, j < i → cstr (s.net j).ssid ≠ cstr ssid := by
  unfold existingIndex
  simp

theorem existingIndex_eq_none {s : PicoFCMNotifierClass} {ssid : List Byte} :
    existingIndex s ssid = none ↔ ∀ i, i < s._networkCount → cstr (s.net i).ssid ≠ cstr ssid := by
  unfold existingIndex
  simp

theorem saveNetwork_null (s : PicoFCMNotifierClass) (password : List Byte) :
    saveNetwork s none password = (false, s) := rfl

theorem saveNetwork_empty (s : PicoFCMNotifierClass) (ssid password : List Byte)
    (h : strlen ssid = 0) : saveNetwork s (some ssid) password = (false, s) := by
  simp [saveNetwork, h]

theorem saveNetwork_update (s : PicoFCMNotifierClass) (ssid password : List Byte) (i : Nat)
    (h : strlen ssid ≠ 0) (hi : existingIndex s ssid = some i) :
    saveNetwork s (some ssid) password =
      (true, { s with
        _networks := s._networks.set i
          { ssid := (s.net i).ssid,
            password := strncpy (s.net i).password password MAX_PASSWORD_LENGTH,
            enabled := true } }) := by
  simp [saveNetwork, h, hi]

theorem saveNetwork_append (s : PicoFCMNotifierClass) (ssid password : List Byte)
    (h : strlen ssid ≠ 0) (hi : existingIndex s ssid = none)
    (hc : s._networkCount < MAX_WIFI_NETWORKS) :
    saveNetwork s (some ssid) password =
      (true, { s with
        _networks := s._networks.set s._networkCount
          { ssid := strncpy (s.net s._networkCount).ssid ssid MAX_SSID_LENGTH,
            password := strncpy (s.net s._networkCount).password password MAX_PASSWORD_LENGTH,
            enabled := true },
        _networkCount := s._networkCount + 1 }) := by
  simp [saveNetwork, h, hi, hc]

theorem saveNetwork_full (s : PicoFCMNotifierClass) (ssid password : List Byte)
    (h : strlen ssid ≠ 0) (hi : existingIndex s ssid = none)
    (hc : ¬ s._networkCount < MAX_WIFI_NETWORKS) :
    saveNetwork s (some ssid) password = (false, s) := by
  simp [saveNetwork, h, hi, hc]

/-- C1: `saveNetwork` returns false exactly when the ssid is null or empty, or when no
entry among the first `_networkCount` has that name and the count is 5; a call that
returns false leaves the whole object as it was; with a full store a new name fails and
a stored name succeeds. -/
theorem C1_saveNetwork_rejects_iff (s : PicoFCMNotifierClass) (ssid : Option (List Byte))
    (password : List Byte) (hcount : s._networkCount ≤ MAX_WIFI_NETWORKS) :
    ((saveNetwork s ssid password).1 = false ↔
      ((ssid = none ∨ ∃ z, ssid = some z ∧ strlen z = 0) ∨
        ((∃ z, ssid = some z ∧ ∀ i, i < s._networkCount → cstr (s.net i).ssid ≠ cstr z) ∧
          s._networkCount = 5))) ∧
    ((saveNetwork s ssid password).1 = false → (saveNetwork s ssid password).2 = s) ∧
    (∀ z, ssid = some z → strlen z ≠ 0 → s._networkCount = 5 →
      (∀ i, i < 5 → cstr (s.net i).ssid ≠ cstr z) → (saveNetwork s ssid password).1 = false) ∧
    (∀ z, ssid = some z → strlen z ≠ 0 →
      (∃ i, i < s._networkCount ∧ cstr (s.net i).ssid = cstr z) →
        (saveNetwork s ssid password).1 = true) := by
  have hiff : (saveNetwork s ssid password).1 = false ↔
      ((ssid = none ∨ ∃ z, ssid = some z ∧ strlen z = 0) ∨
        ((∃ z, ssid = some z ∧ ∀ i, i < s._networkCount → cstr (s.net i).ssid ≠ cstr z) ∧
          s._networkCount = 5)) := by
    cases ssid with
    | none => simp [saveNetwork_null]
    | some z =>
      by_cases hz : strlen z = 0
      · simp [saveNetwork_empty s z password hz, hz]
      · cases hi : existingIndex s z with
        | some i =>
          rw [saveNetwork_update s z password i hz hi]
          obtain ⟨heq, hlt, _⟩ := existingIndex_eq_some.mp hi
          simp only [Bool.true_eq_false, false_iff, not_or]
          refine ⟨by simp [hz], ?_⟩
          rintro ⟨⟨z', hz', hall⟩, _⟩
          cases hz'
          exact hall i hlt heq
        | none =>
          have hall := existingIndex_eq_none.mp hi
          by_cases hc : s._networkCount < MAX_WIFI_NETWORKS
          · rw [saveNetwork_append s z password hz hi hc]
            have : s._networkCount ≠ 5 := by unfold MAX_WIFI_NETWORKS at hc; omega
            simp [hz, this]
          · rw [saveNetwork_full s z password hz hi hc]
            have : s._networkCount = 5 := by unfold MAX_WIFI_NETWORKS at hc hcount; omega
            simp only [true_iff]
            exact Or.inr ⟨⟨z, rfl, hall⟩, this⟩
  have hframe : (saveNetwork s ssid password).1 = false → (saveNetwork s ssid password).2 = s := by
    cases ssid with
    | none => intro _; rfl
    | some z =>
      by_cases hz : strlen z = 0
      · rw [saveNetwork_empty s z password hz]; intro _; rfl
      · cases hi : existingIndex s z with
        | some i => rw [saveNetwork_update s z password i hz hi]; intro h; cases h
        | none =>
          by_cases hc : s._networkCount < MAX_WIFI_NETWORKS
          · rw [saveNetwork_append s z password hz hi hc]; intro h; cases h
          · rw [saveNetwork_full s z password hz hi hc]; intro _; rfl
  refine ⟨hiff, hframe, ?_, ?_⟩
  · intro z hz hne h5 hall
    refine hiff.mpr (Or.inr ⟨⟨z, hz, ?_⟩, h5⟩)
    intro i hi
    exact hall i (by omega)
  · rintro z hz hne ⟨i, hi, heq⟩
    cases hr : (saveNetwork s ssid password).1 with
    | true => rfl
    | false =>
      exfalso
      rcases hiff.mp hr with (h | ⟨z', hz', hz0⟩) | ⟨⟨z', hz', hall⟩, _⟩
      · rw [hz] at h; cases h
      · rw [hz] at hz'; cases hz'; exact hne hz0
      · rw [hz] at hz'; cases hz'; exact hall i hi heq

/-- C1 at the store of five networks: a sixth new name "N6" is rejected and the store is
unchanged, while the stored name "N3" is accepted. -/
theorem C1_saveNetwork_rejects_iff_witness :
    fiveNetworks._networkCount ≤ MAX_WIFI_NETWORKS ∧
    (saveNetwork fiveNetworks (some [78, 54]) [120]).1 = false ∧
    (saveNetwork fiveNetworks (some [78, 54]) [120]).2 = fiveNetworks ∧
    (saveNetwork fiveNetworks (some [78, 51]) [120]).1 = true :=
  have h6 := C1_saveNetwork_rejects_iff fiveNetworks (some [78, 54]) [120] (by decide)
  have h3 := C1_saveNetwork_rejects_iff fiveNetworks (some [78, 51]) [120] (by decide)
  ⟨by decide,
   h6.2.2.1 [78, 54] rfl (by decide) (by decide) (by decide),
   h6.2.1 (h6.2.2.1 [78, 54] rfl (by decide) (by decide) (by decide)),
   h3.2.2.2 [78, 51] rfl (by decide) ⟨2, by decide, by decide⟩⟩

/-! ## Well-formedness is kept by every store operation -/

theorem wellFormed_construct : WellFormed construct := by
  set_option maxRecDepth 100000 in decide

theorem slotOk_blankNetwork : SlotOk blankNetwork :=
  ⟨bufferOk_zeroBuffer _, bufferOk_zeroBuffer _⟩

theorem slotOk_net {s : PicoFCMNotifierClass} (h : WellFormed s) (i : Nat) : SlotOk (s.net i) := by
  unfold PicoFCMNotifierClass.net
  rw [List.getD_eq_getElem?_getD]
  cases hi : s._networks[i]? with
  | none => exact slotOk_blankNetwork
  | some n => exact h.2.2.1 n (List.getElem?_mem hi)

/-- Writing a well-formed slot at an index keeps every invariant but the count bound. -/
theorem wellFormed_set {s : PicoFCMNotifierClass} (h : WellFormed s) (i c : Nat)
    (v : WiFiNetworkConfig) (hv : SlotOk v) (hc : c ≤ MAX_WIFI_NETWORKS) :
    WellFormed { s with _networks := s._networks.set i v, _networkCount := c } := by
  obtain ⟨h1, _, h3, h4⟩ := h
  refine ⟨by simpa using h1, hc, ?_, h4⟩
  intro n hn
  rcases List.mem_or_eq_of_mem_set hn with hn | hn
  · exact h3 n hn
  · rw [hn]; exact hv

theorem entries_set_append {s : PicoFCMNotifierClass} (h : WellFormed s)
    (hc : s._networkCount < MAX_WIFI_NETWORKS) (v : WiFiNetworkConfig) :
    entries { s with _networks := s._networks.set s._networkCount v,
                     _networkCount := s._networkCount + 1 } = entries s ++ [credential v] := by
  unfold entries
  have hlen : s._networkCount < s._networks.length := by rw [h.1]; exact hc
  simp only [List.take_succ, List.getElem?_set_self hlen, Option.toList, List.map_append,
    List.map_cons, List.map_nil]
  rw [List.set_take, List.set_eq_of_length_le (by simp)]

theorem entries_length {s : PicoFCMNotifierClass} (h : WellFormed s) :
    (entries s).length = s._networkCount := by
  unfold entries
  simp only [List.length_map, List.length_take]
  have := h.1; have := h.2.1
  omega

/-- The slot written by one round of the loading loop. -/
theorem slotOk_loaded {s : PicoFCMNotifierClass} (h : WellFormed s) (network : JsonNetwork)
    (ssid : List Byte) :
    SlotOk
      { ssid := strncpy (s.net s._networkCount).ssid ssid MAX_SSID_LENGTH,
        password :=
          match network.password with
          | some password =>
            strncpy (s.net s._networkCount).password password MAX_PASSWORD_LENGTH
          | none => setFirstNul (s.net s._networkCount).password,
        enabled := network.enabled.getD true } := by
  have hs := slotOk_net h s._networkCount
  refine ⟨bufferOk_strncpy _ hs.1, ?_⟩
  cases network.password with
  | some p => exact bufferOk_strncpy _ hs.2
  | none => exact bufferOk_setFirstNul (by decide) hs.2

theorem credential_loaded {s : PicoFCMNotifierClass} (h : WellFormed s) (network : JsonNetwork)
    (ssid : List Byte) (hssid : network.ssid = some ssid) :
    some (credential
      { ssid := strncpy (s.net s._networkCount).ssid ssid MAX_SSID_LENGTH,
        password :=
          match network.password with
          | some password =>
            strncpy (s.net s._networkCount).password password MAX_PASSWORD_LENGTH
          | none => setFirstNul (s.net s._networkCount).password,
        enabled := network.enabled.getD true }) = loadedCredential network := by
  have hs := slotOk_net h s._networkCount
  unfold credential loadedCredential
  rw [hssid]
  simp only [Option.map_some', Option.some.injEq, Prod.mk.injEq, and_true]
  refine ⟨cstr_strncpy _ hs.1, ?_⟩
  cases network.password with
  | some p => exact cstr_strncpy _ hs.2
  | none =>
    apply cstr_setFirstNul
    intro hnil
    have := hs.2.1
    rw [hnil] at this
    simp at this

/-- The loading loop: it keeps the object well formed, touches only the slots and the
count, and appends to the entries the record's next networks that have an ssid, as many
as there is room for. -/
theorem loadNetworks_spec (l : List JsonNetwork) :
    ∀ s : PicoFCMNotifierClass, WellFormed s →
      WellFormed (loadNetworks l s) ∧
      loadNetworks l s = { s with _networks := (loadNetworks l s)._networks,
                                    _networkCount := (loadNetworks l s)._networkCount } ∧
      entries (loadNetworks l s) =
        entries s ++ (l.filterMap loadedCredential).take (MAX_WIFI_NETWORKS - s._networkCount) := by
  induction l with
  | nil => intro s h; simp [loadNetworks, h]
  | cons network rest ih =>
    intro s h
    by_cases hfull : s._networkCount ≥ MAX_WIFI_NETWORKS
    · have h0 : MAX_WIFI_NETWORKS - s._networkCount = 0 := by omega
      simp [loadNetworks, hfull, h, h0]
    · have hlt : s._networkCount < MAX_WIFI_NETWORKS := by omega
      cases hssid : network.ssid with
      | none =>
        have hnone : loadedCredential network = none := by simp [loadedCredential, hssid]
        have := ih s h
        simp only [loadNetworks, hfull, hssid, if_false, List.filterMap_cons, hnone]
        exact this
      | some ssid =>
        have hv := slotOk_loaded h network ssid
        have hc := credential_loaded h network ssid hssid
        have hwf := wellFormed_set h s._networkCount (s._networkCount + 1) _ hv (by omega)
        have hrec := ih _ hwf
        have hent := entries_set_append h hlt
          { ssid := strncpy (s.net s._networkCount).ssid ssid MAX_SSID_LENGTH,
            password :=
              match network.password with
              | some password =>
                strncpy (s.net s._networkCount).password password MAX_PASSWORD_LENGTH
              | none => setFirstNul (s.net s._networkCount).password,
            enabled := network.enabled.getD true }
        simp only [loadNetworks, hfull, hssid, if_false, List.filterMap_cons, ← hc]
        refine ⟨hrec.1, ?_, ?_⟩
        · rw [hrec.2.1]
        · rw [hrec.2.2, hent]
          have hsub : MAX_WIFI_NETWORKS - s._networkCount
              = (MAX_WIFI_NETWORKS - (s._networkCount + 1)) + 1 := by omega
          rw [hsub, List.take_succ_cons]
          simp

/-! ## The count bound -/

theorem wellFormed_saveNetwork {s : PicoFCMNotifierClass} (h : WellFormed s)
    (ssid : Option (List Byte)) (password : List Byte) :
    WellFormed (saveNetwork s ssid password).2 := by
  cases ssid with
  | none => exact h
  | some z =>
    by_cases hz : strlen z = 0
    · rw [saveNetwork_empty s z password hz]; exact h
    · cases hi : existingIndex s z with
      | some i =>
        rw [saveNetwork_update s z password i hz hi]
        have hs := slotOk_net h i
        exact wellFormed_set h i s._networkCount _ ⟨hs.1, bufferOk_strncpy _ hs.2⟩ h.2.1
      | none =>
        by_cases hc : s._networkCount < MAX_WIFI_NETWORKS
        · rw [saveNetwork_append s z password hz hi hc]
          have hs := slotOk_net h s._networkCount
          exact wellFormed_set h s._networkCount (s._networkCount + 1) _
            ⟨bufferOk_strncpy _ hs.1, bufferOk_strncpy _ hs.2⟩ hc
        · rw [saveNetwork_full s z password hz hi hc]; exact h

theorem saveNetwork_count_le (s : PicoFCMNotifierClass) (ssid : Option (List Byte))
    (password : List Byte) (h : s._networkCount ≤ MAX_WIFI_NETWORKS) :
    (saveNetwork s ssid password).2._networkCount ≤ MAX_WIFI_NETWORKS := by
  cases ssid with
  | none => exact h
  | some z =>
    by_cases hz : strlen z = 0
    · rw [saveNetwork_empty s z password hz]; exact h
    · cases hi : existingIndex s z with
      | some i => rw [saveNetwork_update s z password i hz hi]; exact h
      | none =>
        by_cases hc : s._networkCount < MAX_WIFI_NETWORKS
        · rw [saveNetwork_append s z password hz hi hc]; exact hc
        · rw [saveNetwork_full s z password hz hi hc]; exact h

theorem loadNetworks_count_le (l : List JsonNetwork) :
    ∀ s : PicoFCMNotifierClass, s._networkCount ≤ MAX_WIFI_NETWORKS →
      (loadNetworks l s)._networkCount ≤ MAX_WIFI_NETWORKS := by
  induction l with
  | nil => intro s h; exact h
  | cons network rest ih =>
    intro s h
    by_cases hfull : s._networkCount ≥ MAX_WIFI_NETWORKS
    · simp only [loadNetworks, hfull, if_true]; exact h
    · cases hssid : network.ssid with
      | none => simp only [loadNetworks, hfull, hssid, if_false]; exact ih s h
      | some ssid =>
        simp only [loadNetworks, hfull, hssid, if_false]
        exact ih _ (by show s._networkCount + 1 ≤ MAX_WIFI_NETWORKS; omega)

theorem loadConfigFromFlash_count_le (s : PicoFCMNotifierClass) (file : ConfigFile)
    (openOk : Bool) (h : s._networkCount ≤ MAX_WIFI_NETWORKS) :
    (loadConfigFromFlash s file openOk).2._networkCount ≤ MAX_WIFI_NETWORKS := by
  cases file with
  | missing => exact h
  | corrupt => cases openOk <;> exact h
  | record doc =>
    cases openOk with
    | false => exact h
    | true =>
      simp only [loadConfigFromFlash, Bool.not_true, Bool.false_eq_true, if_false]
      exact loadNetworks_count_le _ _ (Nat.zero_le _)

theorem clearNetworks_count (s : PicoFCMNotifierClass) (file : ConfigFile) (removeOk : Bool) :
    (clearNetworks s file removeOk).2.1._networkCount = 0 := by
  cases file <;> cases removeOk <;> rfl

theorem saveConfigToFlash_count (s : PicoFCMNotifierClass) (file : ConfigFile)
    (openOk written : Bool) :
    (saveConfigToFlash s file openOk written).2.1._networkCount = s._networkCount := by
  cases openOk <;> cases written <;> rfl

/-- C2 (evaluation at the failing input): saving the same 33-byte ssid twice into the
constructed store leaves two entries, and both hold the same stored name, the first 32
bytes of the argument. -/
theorem C2_long_ssid_stored_twice :
    longSsidTwice._networkCount = 2 ∧
    cstr (longSsidTwice.net 0).ssid = List.replicate 32 65 ∧
    cstr (longSsidTwice.net 1).ssid = List.replicate 32 65 ∧
    cstr (longSsidTwice.net 0).ssid = cstr (longSsidTwice.net 1).ssid := by
  decide

/-- C3: `_networkCount <= 5` holds in the constructed object and is kept by `saveNetwork`
with any arguments, by `clearNetworks`, by `loadConfigFromFlash` on any file and by
`saveConfigToFlash`. -/
theorem C3_count_never_exceeds_capacity :
    construct._networkCount ≤ MAX_WIFI_NETWORKS ∧
    ∀ s : PicoFCMNotifierClass, s._networkCount ≤ MAX_WIFI_NETWORKS →
      (∀ ssid password, (saveNetwork s ssid password).2._networkCount ≤ MAX_WIFI_NETWORKS) ∧
      (∀ file removeOk, (clearNetworks s file removeOk).2.1._networkCount ≤ MAX_WIFI_NETWORKS) ∧
      (∀ file openOk,
        (loadConfigFromFlash s file openOk).2._networkCount ≤ MAX_WIFI_NETWORKS) ∧
      (∀ file openOk written,
        (saveConfigToFlash s file openOk written).2.1._networkCount ≤ MAX_WIFI_NETWORKS) := by
  refine ⟨by decide, ?_⟩
  intro s h
  refine ⟨fun ssid password => saveNetwork_count_le s ssid password h, ?_, ?_, ?_⟩
  · intro file removeOk
    rw [clearNetworks_count]
    exact Nat.zero_le _
  · intro file openOk
    exact loadConfigFromFlash_count_le s file openOk h
  · intro file openOk written
    rw [saveConfigToFlash_count]
    exact h

/-- C3 at the full store of five networks: a sixth save keeps the count at 5, and loading
a record that lists six networks gives count 5. -/
theorem C3_count_never_exceeds_capacity_witness :
    fiveNetworks._networkCount ≤ MAX_WIFI_NETWORKS ∧
    (saveNetwork fiveNetworks (some [78, 54]) [120]).2._networkCount ≤ MAX_WIFI_NETWORKS ∧
    (loadConfigFromFlash fiveNetworks (.record sixNetworkRecord) true).2._networkCount
      ≤ MAX_WIFI_NETWORKS ∧
    (loadConfigFromFlash fiveNetworks (.record sixNetworkRecord) true).2._networkCount = 5 :=
  have h := C3_count_never_exceeds_capacity.2 fiveNetworks (by decide)
  ⟨by decide, h.1 (some [78, 54]) [120], h.2.2.1 (.record sixNetworkRecord) true, by decide⟩

/-! ## Updating a stored network -/

theorem net_set_self {s : PicoFCMNotifierClass} (i c : Nat) (v : WiFiNetworkConfig)
    (hi : i < s._networks.length) :
    ({ s with _networks := s._networks.set i v, _networkCount := c } :
      PicoFCMNotifierClass).net i = v := by
  simp [PicoFCMNotifierClass.net, List.getElem?_set_self hi]

theorem net_set_ne {s : PicoFCMNotifierClass} (i j c : Nat) (v : WiFiNetworkConfig)
    (hij : j ≠ i) :
    ({ s with _networks := s._networks.set i v, _networkCount := c } :
      PicoFCMNotifierClass).net j = s.net j := by
  simp [PicoFCMNotifierClass.net, List.getElem?_set_ne (Ne.symm hij)]

/-- C4 (as stated, refuted): in the store holding the 32-byte name twice, a save under
that name, which is the stored name of entry 1, leaves the password of entry 1 as it was
and rewrites entry 0; and in a store loaded from a record whose network has an empty
ssid, a save with the empty ssid, which is the stored name of entry 0, is rejected and
leaves that entry's password and `enabled = false`. -/
theorem C4_update_counterexample :
    (1 < longSsidTwice._networkCount ∧
      cstr (longSsidTwice.net 1).ssid = cstr (List.replicate 32 65) ∧
      cstr ((saveNetwork longSsidTwice (some (List.replicate 32 65)) [122]).2.net 1).password
        = [98] ∧
      cstr ((saveNetwork longSsidTwice (some (List.replicate 32 65)) [122]).2.net 1).password
        ≠ [122] ∧
      (saveNetwork longSsidTwice (some (List.replicate 32 65)) [122]).2.net 0
        ≠ longSsidTwice.net 0) ∧
    (0 < emptyNameStore._networkCount ∧
      cstr (emptyNameStore.net 0).ssid = cstr [] ∧
      (saveNetwork emptyNameStore (some []) [122]).1 = false ∧
      cstr ((saveNetwork emptyNameStore (some []) [122]).2.net 0).password ≠ [122] ∧
      ((saveNetwork emptyNameStore (some []) [122]).2.net 0).enabled = false) := by
  decide

/-- C4 (amended): when `saveNetwork` is called with a non-empty ssid and entry `i` is the
first of the first `_networkCount` entries whose stored name equals it, the call returns
true, the count is unchanged, entry `i` keeps its name, holds the new password cut to 64
bytes and is enabled, every other slot and the number of slots are unchanged, and so is
the rest of the object. -/
theorem C4_update_first_match (s : PicoFCMNotifierClass) (ssid password : List Byte) (i : Nat)
    (hwf : WellFormed s) (hne : strlen ssid ≠ 0) (hi : i < s._networkCount)
    (heq : cstr (s.net i).ssid = cstr ssid)
    (hfirst : ∀ j, j < i → cstr (s.net j).ssid ≠ cstr ssid) :
    (saveNetwork s (some ssid) password).1 = true ∧
    (saveNetwork s (some ssid) password).2._networkCount = s._networkCount ∧
    ((saveNetwork s (some ssid) password).2.net i).ssid = (s.net i).ssid ∧
    cstr ((saveNetwork s (some ssid) password).2.net i).password
      = (cstr password).take MAX_PASSWORD_LENGTH ∧
    ((saveNetwork s (some ssid) password).2.net i).enabled = true ∧
    (∀ j, j ≠ i → (saveNetwork s (some ssid) password).2.net j = s.net j) ∧
    (saveNetwork s (some ssid) password).2._networks.length = s._networks.length ∧
    (saveNetwork s (some ssid) password).2 =
      { s with _networks := (saveNetwork s (some ssid) password).2._networks } := by
  have hidx : existingIndex s ssid = some i := existingIndex_eq_some.mpr ⟨heq, hi, hfirst⟩
  have hlen : i < s._networks.length := by
    have := hwf.1; have := hwf.2.1; omega
  rw [saveNetwork_update s ssid password i hne hidx]
  refine ⟨rfl, rfl, ?_, ?_, ?_, ?_, ?_, rfl⟩
  · rw [net_set_self i s._networkCount _ hlen]
  · rw [net_set_self i s._networkCount _ hlen]
    exact cstr_strncpy _ (slotOk_net hwf i).2
  · rw [net_set_self i s._networkCount _ hlen]
  · intro j hj
    exact net_set_ne i j s._networkCount _ hj
  · simp

/-- C4 (amended) on the scenario of the specification: after `saveNetwork("Home", "pw1")`
on the constructed object, `saveNetwork("Home", "pw2")` leaves count 1 and the stored
password "pw2". -/
theorem C4_update_first_match_witness :
    WellFormed homeStore ∧
    (saveNetwork homeStore (some [72, 111, 109, 101]) [112, 119, 50]).1 = true ∧
    (saveNetwork homeStore (some [72, 111, 109, 101]) [112, 119, 50]).2._networkCount = 1 ∧
    cstr ((saveNetwork homeStore (some [72, 111, 109, 101]) [112, 119, 50]).2.net 0).password
      = [112, 119, 50] :=
  have h := C4_update_first_match homeStore [72, 111, 109, 101] [112, 119, 50] 0
    (wellFormed_saveNetwork wellFormed_construct _ _) (by decide) (by decide) (by decide)
    (by intro j hj; omega)
  ⟨wellFormed_saveNetwork wellFormed_construct _ _, h.1, h.2.1, h.2.2.2.1⟩

/-! ## Loading a record -/

theorem loadConfigFromFlash_record_eq (s : PicoFCMNotifierClass) (doc : JsonDocument) :
    loadConfigFromFlash s (.record doc) true =
      (true, loadNetworks doc.networks (loadStart s doc)) := rfl

theorem wellFormed_loadStart {s : PicoFCMNotifierClass} (h : WellFormed s) (doc : JsonDocument) :
    WellFormed (loadStart s doc) := by
  obtain ⟨h1, _, h3, h4, h5, h6, h7, h8, h9⟩ := h
  refine ⟨h1, Nat.zero_le _, h3, h4, h5, h6, h7, ?_, ?_⟩
  · show BufferOk MAX_FCM_URL_LENGTH (match doc.fcm_url with
      | some fcm_url => strncpy s._fcmUrl fcm_url MAX_FCM_URL_LENGTH
      | none => s._fcmUrl)
    cases doc.fcm_url with
    | none => exact h8
    | some u => exact bufferOk_strncpy u h8
  · show BufferOk MAX_FCM_TOKEN_LENGTH (match doc.fcm_token with
      | some fcm_token => strncpy s._fcmToken fcm_token MAX_FCM_TOKEN_LENGTH
      | none => s._fcmToken)
    cases doc.fcm_token with
    | none => exact h9
    | some u => exact bufferOk_strncpy u h9

/-- A successful load, field by field: the entries are those the record describes, an
endpoint field of the record is copied with `strncpy`, an absent one is left alone, and
nothing but the slots, the count and the two endpoint buffers changes. -/
theorem loadConfigFromFlash_record (s : PicoFCMNotifierClass) (doc : JsonDocument)
    (h : WellFormed s) :
    (loadConfigFromFlash s (.record doc) true).1 = true ∧
    WellFormed (loadConfigFromFlash s (.record doc) true).2 ∧
    entries (loadConfigFromFlash s (.record doc) true).2 = recordEntries doc ∧
    (loadConfigFromFlash s (.record doc) true).2._networkCount = (recordEntries doc).length ∧
    (loadConfigFromFlash s (.record doc) true).2._fcmUrl =
      (match doc.fcm_url with
       | some fcm_url => strncpy s._fcmUrl fcm_url MAX_FCM_URL_LENGTH
       | none => s._fcmUrl) ∧
    (loadConfigFromFlash s (.record doc) true).2._fcmToken =
      (match doc.fcm_token with
       | some fcm_token => strncpy s._fcmToken fcm_token MAX_FCM_TOKEN_LENGTH
       | none => s._fcmToken) ∧
    (loadConfigFromFlash s (.record doc) true).2 =
      { s with
        _networks := (loadConfigFromFlash s (.record doc) true).2._networks,
        _networkCount := (loadConfigFromFlash s (.record doc) true).2._networkCount,
        _fcmUrl := (loadConfigFromFlash s (.record doc) true).2._fcmUrl,
        _fcmToken := (loadConfigFromFlash s (.record doc) true).2._fcmToken } := by
  have hstart := wellFormed_loadStart h doc
  obtain ⟨hwf, hframe, hent⟩ := loadNetworks_spec doc.networks _ hstart
  rw [loadConfigFromFlash_record_eq]
  have hent2 : entries (loadNetworks doc.networks (loadStart s doc)) = recordEntries doc := by
    rw [hent]
    simp [entries, recordEntries, loadStart]
  have hurl := congrArg PicoFCMNotifierClass._fcmUrl hframe
  have htok := congrArg PicoFCMNotifierClass._fcmToken hframe
  generalize loadNetworks doc.networks (loadStart s doc) = L at *
  refine ⟨rfl, hwf, hent2, ?_, hurl, htok, ?_⟩
  · rw [← hent2, entries_length hwf]
  · show L = { s with _networks := L._networks, _networkCount := L._networkCount,
                      _fcmUrl := L._fcmUrl, _fcmToken := L._fcmToken }
    rw [hurl, htok]
    exact hframe

/-! ## Saving and loading back -/

theorem loadedCredential_built (n : WiFiNetworkConfig) (h : SlotOk n) :
    loadedCredential
      { ssid := some (cstr n.ssid), password := some (cstr n.password),
        enabled := some n.enabled } = some (credential n) := by
  simp only [loadedCredential, credential, Option.map_some', Option.getD_some, cstr_cstr,
    take_cap_cstr h.1, take_cap_cstr h.2]

theorem range_map_getD {α β : Type} (l : List α) (d : α) (f : α → β) (c : Nat)
    (hc : c ≤ l.length) :
    (List.range c).map (fun i => f (l.getD i d)) = (l.take c).map f := by
  apply List.ext_getElem
  · simp [hc]
  · intro i h1 h2
    simp only [List.length_map, List.length_range] at h1
    have hil : i < l.length := by omega
    simp [List.getD_eq_getElem?_getD, List.getElem?_eq_getElem hil]

/-- The record written by `saveConfigToFlash` describes exactly the entries of the store. -/
theorem recordEntries_buildDocument (s : PicoFCMNotifierClass) (h : WellFormed s) :
    recordEntries (buildDocument s) = entries s := by
  have hmap : (buildDocument s).networks.filterMap loadedCredential
      = (List.range s._networkCount).map (fun i => credential (s._networks.getD i blankNetwork)) := by
    simp only [buildDocument, List.filterMap_map]
    rw [← List.filterMap_eq_map]
    apply List.filterMap_congr
    intro i _
    exact loadedCredential_built _ (slotOk_net h i)
  have hc : s._networkCount ≤ s._networks.length := by rw [h.1]; exact h.2.1
  unfold recordEntries
  rw [hmap, range_map_getD _ _ _ _ hc]
  unfold entries
  apply List.take_of_length_le
  simp only [List.length_map, List.length_take]
  have := h.2.1
  omega

theorem saveConfigToFlash_success {s : PicoFCMNotifierClass} {file : ConfigFile}
    {openOk written : Bool} (h : (saveConfigToFlash s file openOk written).1 = true) :
    saveConfigToFlash s file openOk written =
      (true,
       { s with
         _fcmUrl :=
           if strlen s._receivedFcmUrl > 0 then
             strncpy s._fcmUrl s._receivedFcmUrl MAX_FCM_URL_LENGTH
           else s._fcmUrl,
         _fcmToken :=
           if strlen s._receivedFcmToken > 0 then
             strncpy s._fcmToken s._receivedFcmToken MAX_FCM_TOKEN_LENGTH
           else s._fcmToken },
       .record (buildDocument s)) := by
  cases openOk <;> cases written <;> first | rfl | (exact absurd h (by simp [saveConfigToFlash]))

theorem wellFormed_saveConfigToFlash {s : PicoFCMNotifierClass} (h : WellFormed s)
    (file : ConfigFile) (openOk written : Bool) :
    WellFormed (saveConfigToFlash s file openOk written).2.1 := by
  obtain ⟨h1, h2, h3, h4, h5, h6, h7, h8, h9⟩ := h
  cases openOk <;> cases written <;>
    first
    | exact ⟨h1, h2, h3, h4, h5, h6, h7, h8, h9⟩
    | (refine ⟨h1, h2, h3, h4, h5, h6, h7, ?_, ?_⟩
       · show BufferOk MAX_FCM_URL_LENGTH (if strlen s._receivedFcmUrl > 0 then
           strncpy s._fcmUrl s._receivedFcmUrl MAX_FCM_URL_LENGTH else s._fcmUrl)
         split
         · exact bufferOk_strncpy _ h8
         · exact h8
       · show BufferOk MAX_FCM_TOKEN_LENGTH (if strlen s._receivedFcmToken > 0 then
           strncpy s._fcmToken s._receivedFcmToken MAX_FCM_TOKEN_LENGTH else s._fcmToken)
         split
         · exact bufferOk_strncpy _ h9
         · exact h9)

/-- C5: if `saveConfigToFlash` succeeds on a well-formed object, then
`loadConfigFromFlash`, run on the record just written (from the object the save left, and
equally from any other well-formed object `m`, such as the one constructed after a
restart), succeeds and gives the same count and the same `(ssid, password, enabled)`
entries in the same order as before the save, and each endpoint field whose pending value
was non-empty at save time equals that pending value. -/
theorem C5_save_then_load_round_trip (s m : PicoFCMNotifierClass) (file : ConfigFile)
    (openOk written : Bool) (hs : WellFormed s)
    (hm : m = (saveConfigToFlash s file openOk written).2.1 ∨ WellFormed m)
    (hsave : (saveConfigToFlash s file openOk written).1 = true) :
    (loadConfigFromFlash m (saveConfigToFlash s file openOk written).2.2 true).1 = true ∧
    (loadConfigFromFlash m (saveConfigToFlash s file openOk written).2.2 true).2._networkCount
      = s._networkCount ∧
    entries (loadConfigFromFlash m (saveConfigToFlash s file openOk written).2.2 true).2
      = entries s ∧
    (strlen s._receivedFcmUrl > 0 →
      cstr (loadConfigFromFlash m (saveConfigToFlash s file openOk written).2.2 true).2._fcmUrl
        = cstr s._receivedFcmUrl) ∧
    (strlen s._receivedFcmToken > 0 →
      cstr (loadConfigFromFlash m (saveConfigToFlash s file openOk written).2.2 true).2._fcmToken
        = cstr s._receivedFcmToken) := by
  have hmwf : WellFormed m := by
    rcases hm with hm | hm
    · rw [hm]; exact wellFormed_saveConfigToFlash hs file openOk written
    · exact hm
  have hfile : (saveConfigToFlash s file openOk written).2.2 = .record (buildDocument s) := by
    rw [saveConfigToFlash_success hsave]
  rw [hfile]
  obtain ⟨hok, _, hent, hcount, hurl, htok, _⟩ :=
    loadConfigFromFlash_record m (buildDocument s) hmwf
  have hre := recordEntries_buildDocument s hs
  refine ⟨hok, ?_, ?_, ?_, ?_⟩
  · rw [hcount, hre, entries_length hs]
  · rw [hent, hre]
  · intro hpos
    rw [hurl]
    simp only [buildDocument, hpos, if_true]
    rw [cstr_strncpy _ hmwf.2.2.2.2.2.2.2.1, cstr_cstr]
    exact take_cap_cstr hs.2.2.2.2.2.1
  · intro hpos
    rw [htok]
    simp only [buildDocument, hpos, if_true]
    rw [cstr_strncpy _ hmwf.2.2.2.2.2.2.2.2, cstr_cstr]
    exact take_cap_cstr hs.2.2.2.2.2.2.1

/-- C5 on the store holding "Home"/"pw1" with pending url "u1" and token "t1": the save
succeeds, the load of the written record succeeds, and count, entries and both endpoint
fields come back. -/
theorem C5_save_then_load_round_trip_witness :
    WellFormed homeStorePending ∧
    (saveConfigToFlash homeStorePending .missing true true).1 = true ∧
    (loadConfigFromFlash (saveConfigToFlash homeStorePending .missing true true).2.1
      (saveConfigToFlash homeStorePending .missing true true).2.2 true).1 = true ∧
    entries (loadConfigFromFlash (saveConfigToFlash homeStorePending .missing true true).2.1
      (saveConfigToFlash homeStorePending .missing true true).2.2 true).2
      = [([72, 111, 109, 101], [112, 119, 49], true)] ∧
    cstr (loadConfigFromFlash (saveConfigToFlash homeStorePending .missing true true).2.1
      (saveConfigToFlash homeStorePending .missing true true).2.2 true).2._fcmUrl
      = [117, 49] :=
  have hwf : WellFormed homeStorePending := by
    set_option maxRecDepth 100000 in decide
  have h := C5_save_then_load_round_trip homeStorePending
    (saveConfigToFlash homeStorePending .missing true true).2.1 .missing true true
    hwf (Or.inl rfl) rfl
  ⟨hwf, rfl, h.1, h.2.2.1, h.2.2.2.1 (by set_option maxRecDepth 100000 in decide)⟩

/-! ## Endpoint fields across save and load -/

/-- C6 (evaluation at the failing input): the flash holds a record with `fcm_url` "u1" and
`fcm_token` "t1"; after a restart the staging buffers are empty and the in-memory endpoint
is loaded; `saveConfigToFlash` then succeeds and the record it leaves has neither
`fcm_url` nor `fcm_token`, while the in-memory endpoint still holds both. -/
theorem C6_save_drops_persisted_endpoint :
    provisionedFile = .record
      { fcm_url := some [117, 49], fcm_token := some [116, 49],
        networks := [ { ssid := some [72, 111, 109, 101], password := some [112, 119, 49],
                        enabled := some true } ] } ∧
    strlen restartedStore._receivedFcmUrl = 0 ∧
    strlen restartedStore._receivedFcmToken = 0 ∧
    (saveConfigToFlash restartedStore provisionedFile true true).1 = true ∧
    (saveConfigToFlash restartedStore provisionedFile true true).2.2 = .record
      { fcm_url := none, fcm_token := none,
        networks := [ { ssid := some [72, 111, 109, 101], password := some [112, 119, 49],
                        enabled := some true } ] } ∧
    cstr (saveConfigToFlash restartedStore provisionedFile true true).2.1._fcmUrl = [117, 49] ∧
    cstr (saveConfigToFlash restartedStore provisionedFile true true).2.1._fcmToken
      = [116, 49] := by
  set_option maxRecDepth 100000 in decide

/-- C7: `loadConfigFromFlash` returns false and leaves the whole object unchanged when the
file is missing, when it cannot be opened, and when it does not parse; on the constructed
object with no file the count stays 0. -/
theorem C7_load_failure_changes_nothing (s : PicoFCMNotifierClass) (file : ConfigFile)
    (openOk : Bool) :
    loadConfigFromFlash s .missing openOk = (false, s) ∧
    loadConfigFromFlash s file false = (false, s) ∧
    loadConfigFromFlash s .corrupt openOk = (false, s) ∧
    (loadConfigFromFlash construct .missing openOk).1 = false ∧
    (loadConfigFromFlash construct .missing openOk).2._networkCount = 0 := by
  refine ⟨rfl, ?_, ?_, rfl, rfl⟩
  · cases file <;> rfl
  · cases openOk <;> rfl

/-- C8 (as stated, refuted): loading the same parseable record, which has no `fcm_url` and
no `fcm_token`, into the constructed object and into an object whose endpoint holds "u1"
and "t1" succeeds both times and leaves different endpoint fields; in the second object
they are not empty. -/
theorem C8_load_counterexample :
    (loadConfigFromFlash construct (.record networkOnlyRecord) true).1 = true ∧
    (loadConfigFromFlash restartedStore (.record networkOnlyRecord) true).1 = true ∧
    cstr (loadConfigFromFlash construct (.record networkOnlyRecord) true).2._fcmUrl = [] ∧
    cstr (loadConfigFromFlash restartedStore (.record networkOnlyRecord) true).2._fcmUrl
      = [117, 49] ∧
    cstr (loadConfigFromFlash construct (.record networkOnlyRecord) true).2._fcmToken = [] ∧
    cstr (loadConfigFromFlash restartedStore (.record networkOnlyRecord) true).2._fcmToken
      = [116, 49] := by
  set_option maxRecDepth 100000 in decide

/-- C8 (amended): for any two well-formed prior objects, loading the same parseable record
succeeds and yields the same count and the same first-count entries, and the same value
for each endpoint field that the record has; an endpoint field absent from the record
keeps the value the object held before the load. -/
theorem C8_load_determined_by_record (s₁ s₂ : PicoFCMNotifierClass) (doc : JsonDocument)
    (h₁ : WellFormed s₁) (h₂ : WellFormed s₂) :
    (loadConfigFromFlash s₁ (.record doc) true).1 = true ∧
    (loadConfigFromFlash s₂ (.record doc) true).1 = true ∧
    (loadConfigFromFlash s₁ (.record doc) true).2._networkCount
      = (loadConfigFromFlash s₂ (.record doc) true).2._networkCount ∧
    entries (loadConfigFromFlash s₁ (.record doc) true).2
      = entries (loadConfigFromFlash s₂ (.record doc) true).2 ∧
    (doc.fcm_url.isSome →
      cstr (loadConfigFromFlash s₁ (.record doc) true).2._fcmUrl
        = cstr (loadConfigFromFlash s₂ (.record doc) true).2._fcmUrl) ∧
    (doc.fcm_token.isSome →
      cstr (loadConfigFromFlash s₁ (.record doc) true).2._fcmToken
        = cstr (loadConfigFromFlash s₂ (.record doc) true).2._fcmToken) ∧
    (doc.fcm_url = none →
      (loadConfigFromFlash s₁ (.record doc) true).2._fcmUrl = s₁._fcmUrl ∧
      (loadConfigFromFlash s₂ (.record doc) true).2._fcmUrl = s₂._fcmUrl) ∧
    (doc.fcm_token = none →
      (loadConfigFromFlash s₁ (.record doc) true).2._fcmToken = s₁._fcmToken ∧
      (loadConfigFromFlash s₂ (.record doc) true).2._fcmToken = s₂._fcmToken) := by
  obtain ⟨ok₁, _, ent₁, cnt₁, url₁, tok₁, _⟩ := loadConfigFromFlash_record s₁ doc h₁
  obtain ⟨ok₂, _, ent₂, cnt₂, url₂, tok₂, _⟩ := loadConfigFromFlash_record s₂ doc h₂
  refine ⟨ok₁, ok₂, by rw [cnt₁, cnt₂], by rw [ent₁, ent₂], ?_, ?_, ?_, ?_⟩
  · intro hsome
    rw [url₁, url₂]
    cases hu : doc.fcm_url with
    | none => rw [hu] at hsome; cases hsome
    | some u =>
      simp only []
      rw [cstr_strncpy u h₁.2.2.2.2.2.2.2.1, cstr_strncpy u h₂.2.2.2.2.2.2.2.1]
  · intro hsome
    rw [tok₁, tok₂]
    cases hu : doc.fcm_token with
    | none => rw [hu] at hsome; cases hsome
    | some u =>
      simp only []
      rw [cstr_strncpy u h₁.2.2.2.2.2.2.2.2, cstr_strncpy u h₂.2.2.2.2.2.2.2.2]
  · intro hnone
    rw [url₁, url₂, hnone]
    exact ⟨rfl, rfl⟩
  · intro hnone
    rw [tok₁, tok₂, hnone]
    exact ⟨rfl, rfl⟩

/-- C8 (amended) on the constructed object and the restarted one (endpoint "u1", "t1"),
loading a record with `fcm_url` "u2" and no `fcm_token`: same count, same entries, same
url, and each object keeps its own token. -/
theorem C8_load_determined_by_record_witness :
    WellFormed construct ∧ WellFormed restartedStore ∧
    entries (loadConfigFromFlash construct (.record urlOnlyRecord) true).2
      = entries (loadConfigFromFlash restartedStore (.record urlOnlyRecord) true).2 ∧
    cstr (loadConfigFromFlash construct (.record urlOnlyRecord) true).2._fcmUrl
      = cstr (loadConfigFromFlash restartedStore (.record urlOnlyRecord) true).2._fcmUrl ∧
    (loadConfigFromFlash construct (.record urlOnlyRecord) true).2._fcmToken
      = construct._fcmToken ∧
    (loadConfigFromFlash restartedStore (.record urlOnlyRecord) true).2._fcmToken
      = restartedStore._fcmToken :=
  have hr : WellFormed restartedStore := by
    set_option maxRecDepth 100000 in decide
  have h := C8_load_determined_by_record construct restartedStore urlOnlyRecord
    wellFormed_construct hr
  ⟨wellFormed_construct, hr, h.2.2.2.1, h.2.2.2.2.1 rfl, (h.2.2.2.2.2.2.2 rfl).1,
   (h.2.2.2.2.2.2.2 rfl).2⟩

/-! ## What a load stores -/

theorem entries_bounded {s : PicoFCMNotifierClass} (h : WellFormed s) :
    ∀ e ∈ entries s, e.1.length ≤ MAX_SSID_LENGTH ∧ e.2.1.length ≤ MAX_PASSWORD_LENGTH := by
  intro e he
  unfold entries at he
  obtain ⟨n, hn, rfl⟩ := List.mem_map.mp he
  have hs := h.2.2.1 n (List.mem_of_mem_take hn)
  exact ⟨cstr_length_le hs.1, cstr_length_le hs.2⟩

/-- C9: for every parseable record, loaded into a well-formed object, the load succeeds;
the entries are, in record order, the first (at most 5) network objects that have an
ssid, each with its ssid cut to 32 bytes, its password cut to 64 bytes (empty if absent)
and `enabled` as in the record (true if absent); an endpoint field of the record is
stored cut to 256 bytes; and every buffer keeps its size and its final NUL. -/
theorem C9_load_clamps (s : PicoFCMNotifierClass) (doc : JsonDocument) (h : WellFormed s) :
    (loadConfigFromFlash s (.record doc) true).1 = true ∧
    entries (loadConfigFromFlash s (.record doc) true).2
      = (doc.networks.filterMap loadedCredential).take MAX_WIFI_NETWORKS ∧
    (loadConfigFromFlash s (.record doc) true).2._networkCount
      = ((doc.networks.filterMap loadedCredential).take MAX_WIFI_NETWORKS).length ∧
    (loadConfigFromFlash s (.record doc) true).2._networkCount ≤ MAX_WIFI_NETWORKS ∧
    (∀ e ∈ entries (loadConfigFromFlash s (.record doc) true).2,
      e.1.length ≤ MAX_SSID_LENGTH ∧ e.2.1.length ≤ MAX_PASSWORD_LENGTH) ∧
    (∀ u, doc.fcm_url = some u →
      cstr (loadConfigFromFlash s (.record doc) true).2._fcmUrl
        = (cstr u).take MAX_FCM_URL_LENGTH) ∧
    (∀ u, doc.fcm_token = some u →
      cstr (loadConfigFromFlash s (.record doc) true).2._fcmToken
        = (cstr u).take MAX_FCM_TOKEN_LENGTH) ∧
    (cstr (loadConfigFromFlash s (.record doc) true).2._fcmUrl).length ≤ MAX_FCM_URL_LENGTH ∧
    (cstr (loadConfigFromFlash s (.record doc) true).2._fcmToken).length
      ≤ MAX_FCM_TOKEN_LENGTH ∧
    WellFormed (loadConfigFromFlash s (.record doc) true).2 := by
  obtain ⟨ok, wf, ent, cnt, url, tok, _⟩ := loadConfigFromFlash_record s doc h
  refine ⟨ok, ent, cnt, wf.2.1, entries_bounded wf, ?_, ?_,
    cstr_length_le wf.2.2.2.2.2.2.2.1, cstr_length_le wf.2.2.2.2.2.2.2.2, wf⟩
  · intro u hu
    rw [url, hu]
    exact cstr_strncpy u h.2.2.2.2.2.2.2.1
  · intro u hu
    rw [tok, hu]
    exact cstr_strncpy u h.2.2.2.2.2.2.2.2

/-- C9 on the full store of five networks and the record listing six: the load succeeds
and the entries are the record's first five, with the empty password for the network
that has none and `enabled = true` for the one that does not say. -/
theorem C9_load_clamps_witness :
    WellFormed fiveNetworks ∧
    (loadConfigFromFlash fiveNetworks (.record sixNetworkRecord) true).1 = true ∧
    entries (loadConfigFromFlash fiveNetworks (.record sixNetworkRecord) true).2 =
      [ ([78, 49], [97], true), ([78, 50], [98], false), ([78, 51], [], true),
        ([78, 52], [100], true), ([78, 53], [101], true) ] ∧
    WellFormed (loadConfigFromFlash fiveNetworks (.record sixNetworkRecord) true).2 :=
  have hwf : WellFormed fiveNetworks := by
    set_option maxRecDepth 100000 in decide
  have h := C9_load_clamps fiveNetworks sixNetworkRecord hwf
  ⟨hwf, h.1, h.2.1, h.2.2.2.2.2.2.2.2.2⟩

/-! ## Clearing the store -/

theorem clearSlots (l : List WiFiNetworkConfig) (h : l.length = MAX_WIFI_NETWORKS) :
    (List.range MAX_WIFI_NETWORKS).foldl (fun nets i => nets.set i blankNetwork) l
      = List.replicate MAX_WIFI_NETWORKS blankNetwork := by
  match l, h with
  | [_, _, _, _, _], _ => rfl

theorem clearNetworks_eq (s : PicoFCMNotifierClass) (file : ConfigFile) (removeOk : Bool) :
    (clearNetworks s file removeOk).2.1 =
      { s with
        _networks := (List.range MAX_WIFI_NETWORKS).foldl
          (fun nets i => nets.set i blankNetwork) s._networks,
        _networkCount := 0,
        _fcmUrl := zeroBuffer (MAX_FCM_URL_LENGTH + 1),
        _fcmToken := zeroBuffer (MAX_FCM_TOKEN_LENGTH + 1) } := by
  cases file <;> cases removeOk <;> rfl

/-- C10: for every prior object (with its five slots), `clearNetworks` leaves count 0,
all five slots blank (empty ssid, empty password, `enabled = false`) and empty in-memory
endpoint url and token; it returns true when there is no file; the file is gone when the
removal succeeds; and a second call leaves the same object as the first, returning true
once the file is gone. -/
theorem C10_clearNetworks (s : PicoFCMNotifierClass) (file : ConfigFile)
    (removeOk removeOk₂ : Bool) (hlen : s._networks.length = MAX_WIFI_NETWORKS) :
    (clearNetworks s file removeOk).2.1._networkCount = 0 ∧
    (clearNetworks s file removeOk).2.1._networks.length = MAX_WIFI_NETWORKS ∧
    (∀ i, i < MAX_WIFI_NETWORKS →
      cstr ((clearNetworks s file removeOk).2.1.net i).ssid = [] ∧
      cstr ((clearNetworks s file removeOk).2.1.net i).password = [] ∧
      ((clearNetworks s file removeOk).2.1.net i).enabled = false ∧
      (clearNetworks s file removeOk).2.1.net i = blankNetwork) ∧
    cstr (clearNetworks s file removeOk).2.1._fcmUrl = [] ∧
    cstr (clearNetworks s file removeOk).2.1._fcmToken = [] ∧
    (clearNetworks s .missing removeOk).1 = true ∧
    (removeOk = true → (clearNetworks s file removeOk).2.2 = .missing) ∧
    (clearNetworks (clearNetworks s file removeOk).2.1 (clearNetworks s file removeOk).2.2
      removeOk₂).2.1 = (clearNetworks s file removeOk).2.1 ∧
    ((clearNetworks s file removeOk).2.2 = .missing →
      (clearNetworks (clearNetworks s file removeOk).2.1 (clearNetworks s file removeOk).2.2
        removeOk₂).1 = true) := by
  have hnets : (clearNetworks s file removeOk).2.1._networks
      = List.replicate MAX_WIFI_NETWORKS blankNetwork := by
    rw [clearNetworks_eq]
    exact clearSlots _ hlen
  refine ⟨clearNetworks_count s file removeOk, ?_, ?_, ?_, ?_, rfl, ?_, ?_, ?_⟩
  · rw [hnets]; simp
  · intro i hi
    have hnet : (clearNetworks s file removeOk).2.1.net i = blankNetwork := by
      unfold PicoFCMNotifierClass.net
      rw [hnets]
      simp [List.getD_eq_getElem?_getD]
    rw [hnet]
    exact ⟨cstr_zeroBuffer _, cstr_zeroBuffer _, rfl, rfl⟩
  · rw [clearNetworks_eq]; exact cstr_zeroBuffer _
  · rw [clearNetworks_eq]; exact cstr_zeroBuffer _
  · intro hr
    subst hr
    cases file <;> rfl
  · rw [clearNetworks_eq _ _ removeOk₂]
    have h2 : (clearNetworks s file removeOk).2.1._networks.length = MAX_WIFI_NETWORKS := by
      rw [hnets]; simp
    rw [clearSlots _ h2, ← hnets]
    rw [clearNetworks_eq]
  · intro hmissing
    rw [hmissing]
    rfl

/-- C10 on the full store of five networks with a record on flash whose removal
succeeds: everything is cleared, the file is gone, and the second call returns true and
changes nothing. -/
theorem C10_clearNetworks_witness :
    fiveNetworks._networks.length = MAX_WIFI_NETWORKS ∧
    (clearNetworks fiveNetworks (.record sixNetworkRecord) true).2.1._networkCount = 0 ∧
    (clearNetworks fiveNetworks (.record sixNetworkRecord) true).2.2 = .missing ∧
    (clearNetworks (clearNetworks fiveNetworks (.record sixNetworkRecord) true).2.1
      (clearNetworks fiveNetworks (.record sixNetworkRecord) true).2.2 false).2.1
      = (clearNetworks fiveNetworks (.record sixNetworkRecord) true).2.1 ∧
    (clearNetworks (clearNetworks fiveNetworks (.record sixNetworkRecord) true).2.1
      (clearNetworks fiveNetworks (.record sixNetworkRecord) true).2.2 false).1 = true :=
  have h := C10_clearNetworks fiveNetworks (.record sixNetworkRecord) true false (by decide)
  ⟨by decide, h.1, h.2.2.2.2.2.2.1 rfl, h.2.2.2.2.2.2.2.1, h.2.2.2.2.2.2.2.2 (h.2.2.2.2.2.2.1 rfl)⟩

/-! ## Names stay distinct when no ssid is longer than the buffer -/

theorem namesDistinct_saveNetwork (s : PicoFCMNotifierClass) (ssid password : List Byte)
    (hwf : WellFormed s) (hd : NamesDistinct s) (hlen : strlen ssid ≤ MAX_SSID_LENGTH) :
    NamesDistinct (saveNetwork s (some ssid) password).2 := by
  by_cases hz : strlen ssid = 0
  · rw [saveNetwork_empty s ssid password hz]; exact hd
  · cases hi : existingIndex s ssid with
    | some i =>
      rw [saveNetwork_update s ssid password i hz hi]
      have hilen : i < s._networks.length := by
        have := (existingIndex_eq_some.mp hi).2.1
        have := hwf.1; have := hwf.2.1; omega
      have hname : ∀ (v : WiFiNetworkConfig), v.ssid = (s.net i).ssid → ∀ k,
          (PicoFCMNotifierClass.net
            { s with _networks := s._networks.set i v, _networkCount := s._networkCount } k).ssid
            = (s.net k).ssid := by
        intro v hv k
        by_cases hk : k = i
        · rw [hk, net_set_self i s._networkCount _ hilen, hv]
        · rw [net_set_ne i k s._networkCount _ hk]
      intro a b hab hb heq
      have ha := hname ⟨(s.net i).ssid,
        strncpy (s.net i).password password MAX_PASSWORD_LENGTH, true⟩ rfl a
      have hb2 := hname ⟨(s.net i).ssid,
        strncpy (s.net i).password password MAX_PASSWORD_LENGTH, true⟩ rfl b
      exact hd a b hab hb ((congrArg cstr ha).symm.trans (heq.trans (congrArg cstr hb2)))
    | none =>
      by_cases hc : s._networkCount < MAX_WIFI_NETWORKS
      · rw [saveNetwork_append s ssid password hz hi hc]
        have hclen : s._networkCount < s._networks.length := by rw [hwf.1]; exact hc
        have hnone := existingIndex_eq_none.mp hi
        intro a b hab hb heq
        have hb' : b < s._networkCount + 1 := hb
        have ha : a ≠ s._networkCount := by omega
        have hna := net_set_ne (s := s) s._networkCount a (s._networkCount + 1)
          ⟨strncpy (s.net s._networkCount).ssid ssid MAX_SSID_LENGTH,
           strncpy (s.net s._networkCount).password password MAX_PASSWORD_LENGTH, true⟩ ha
        by_cases hbc : b = s._networkCount
        · have hnb := net_set_self (s := s) s._networkCount (s._networkCount + 1)
            ⟨strncpy (s.net s._networkCount).ssid ssid MAX_SSID_LENGTH,
             strncpy (s.net s._networkCount).password password MAX_PASSWORD_LENGTH, true⟩
            hclen
          have hstored : cstr (strncpy (s.net s._networkCount).ssid ssid MAX_SSID_LENGTH)
              = cstr ssid := by
            rw [cstr_strncpy _ (slotOk_net hwf s._networkCount).1]
            exact List.take_of_length_le hlen
          rw [hbc] at heq
          have h1 : cstr (s.net a).ssid = cstr ssid :=
            (congrArg (fun n => cstr n.ssid) hna).symm.trans
              (heq.trans ((congrArg (fun n => cstr n.ssid) hnb).trans hstored))
          exact hnone a (by omega) h1
        · have hnb := net_set_ne (s := s) s._networkCount b (s._networkCount + 1)
            ⟨strncpy (s.net s._networkCount).ssid ssid MAX_SSID_LENGTH,
             strncpy (s.net s._networkCount).password password MAX_PASSWORD_LENGTH, true⟩ hbc
          exact hd a b hab (by omega)
            ((congrArg (fun n => cstr n.ssid) hna).symm.trans
              (heq.trans (congrArg (fun n => cstr n.ssid) hnb)))
      · rw [saveNetwork_full s ssid password hz hi hc]; exact hd

/-- Starting from any well-formed store with distinct names, a sequence of `saveNetwork`
calls whose ssids are at most 32 bytes long keeps the stored names distinct. -/
theorem namesDistinct_saveAll (calls : List (List Byte × List Byte)) :
    ∀ s : PicoFCMNotifierClass, WellFormed s → NamesDistinct s →
      (∀ call ∈ calls, strlen call.1 ≤ MAX_SSID_LENGTH) →
      WellFormed (saveAll calls s) ∧ NamesDistinct (saveAll calls s) := by
  induction calls with
  | nil => intro s hwf hd _; exact ⟨hwf, hd⟩
  | cons call rest ih =>
    intro s hwf hd hall
    have h1 := namesDistinct_saveNetwork s call.1 call.2 hwf hd
      (hall call (List.mem_cons_self _ _))
    exact ih _ (wellFormed_saveNetwork hwf _ _) h1
      (fun c hc => hall c (List.mem_cons_of_mem _ hc))

/-- From the constructed store, calls with ssids of at most 32 bytes never store a name
twice. -/
theorem namesDistinct_from_construct (calls : List (List Byte × List Byte))
    (hall : ∀ call ∈ calls, strlen call.1 ≤ MAX_SSID_LENGTH) :
    NamesDistinct (saveAll calls construct) :=
  (namesDistinct_saveAll calls construct wellFormed_construct
    (by intro i j _ hj; exact absurd hj (Nat.not_lt_zero _)) hall).2

/-! ## One tick of `loop` while connecting -/

theorem setStatus_same (s : PicoFCMNotifierClass) : setStatus s s._status = (s, []) := by
  simp [setStatus]

theorem setStatus_other (s : PicoFCMNotifierClass) (newStatus : PicoWiFiProvisioningStatus)
    (h : s._status ≠ newStatus) :
    setStatus s newStatus =
      ({ s with _status := newStatus },
       .statusAssigned newStatus ::
        (match s._statusCallback with
         | some callback => [.statusCallback callback newStatus]
         | none => [])) := by
  simp [setStatus, h]

theorem setStatus_status (s : PicoFCMNotifierClass) (newStatus : PicoWiFiProvisioningStatus) :
    (setStatus s newStatus).1._status = newStatus := by
  by_cases h : s._status = newStatus
  · rw [← h, setStatus_same]
  · rw [setStatus_other s newStatus h]

/-- The events of one `setStatus`: at most one assignment and at most one callback, and
no call into the network stack. -/
theorem setStatus_events (s : PicoFCMNotifierClass) (newStatus : PicoWiFiProvisioningStatus) :
    ((setStatus s newStatus).2.filter Event.isStatusAssigned).length ≤ 1 ∧
    ((setStatus s newStatus).2.filter Event.isStatusCallback).length ≤ 1 ∧
    Event.wifiDisconnect ∉ (setStatus s newStatus).2 ∧
    (∀ e ∈ (setStatus s newStatus).2, e.isWifiBegin = false) := by
  by_cases h : s._status = newStatus
  · rw [← h, setStatus_same]; simp
  · rw [setStatus_other s newStatus h]
    cases s._statusCallback <;> simp [Event.isStatusAssigned, Event.isStatusCallback,
      Event.isWifiBegin]

/-- The result of `loop` in terms of what the poll of the connection attempt did. -/
theorem loop_eq (s : PicoFCMNotifierClass) (lastReported : wl_status_t) (env : Env)
    (polled : PicoFCMNotifierClass × List Event)
    (h : polled =
      if s._status = .PROVISION_CONNECTING then
        if env.wifiStatus = .WL_CONNECTED then
          setStatus s .PROVISION_CONNECTED
        else if env.wifiStatus = .WL_CONNECT_FAILED ∨ env.wifiStatus = .WL_NO_SSID_AVAIL then
          setStatus s .PROVISION_FAILED
        else if sub32 env.millis s._connectionStartTime > WIFI_CONNECT_TIMEOUT_MS then
          ((setStatus s .PROVISION_FAILED).1,
           (setStatus s .PROVISION_FAILED).2 ++ [.wifiDisconnect])
        else (s, [])
      else (s, [])) :
    loop s lastReported env =
      (polled.1, env.wifiStatus,
       [.btstackLoop, .bleNotifyUpdate] ++ polled.2 ++
        (if env.wifiStatus ≠ lastReported then
          match polled.1._wifiStatusCallback with
          | some callback => [.wifiStatusCallback callback env.wifiStatus]
          | none => []
         else [])) := by
  subst h
  rfl

/-- The events that `loop` adds around the poll are neither status events nor calls of
`WiFi.disconnect`. -/
theorem loop_frame_events (polled : PicoFCMNotifierClass × List Event) (env : Env)
    (lastReported : wl_status_t) (p : Event → Bool)
    (hp : p .btstackLoop = false ∧ p .bleNotifyUpdate = false ∧
      ∀ callback status, p (.wifiStatusCallback callback status) = false) :
    List.filter p ([.btstackLoop, .bleNotifyUpdate] ++ polled.2 ++
        (if env.wifiStatus ≠ lastReported then
          match polled.1._wifiStatusCallback with
          | some callback => [.wifiStatusCallback callback env.wifiStatus]
          | none => []
         else [])) = List.filter p polled.2 := by
  obtain ⟨h1, h2, h3⟩ := hp
  by_cases hne : env.wifiStatus ≠ lastReported
  · cases hcb : polled.1._wifiStatusCallback <;>
      simp [List.filter_cons, List.filter_append, h1, h2, h3, hne, hcb]
  · simp [List.filter_cons, List.filter_append, h1, h2, hne]

theorem wifiReport_filter (callback : Option Nat) (lastReported current : wl_status_t)
    (p : Event → Bool) (hp : ∀ c st, p (.wifiStatusCallback c st) = false) :
    (wifiReport callback lastReported current).filter p = [] := by
  unfold wifiReport
  split
  · cases callback <;> simp [hp]
  · rfl

theorem wifiReport_no_disconnect (callback : Option Nat) (lastReported current : wl_status_t) :
    Event.wifiDisconnect ∉ wifiReport callback lastReported current := by
  unfold wifiReport
  split
  · cases callback <;> simp
  · simp

theorem setStatus_wifiCallback (s : PicoFCMNotifierClass)
    (newStatus : PicoWiFiProvisioningStatus) :
    (setStatus s newStatus).1._wifiStatusCallback = s._wifiStatusCallback := by
  by_cases h : s._status = newStatus
  · rw [← h, setStatus_same]
  · rw [setStatus_other s newStatus h]

/-- The tick while connecting, network reports connected. -/
theorem loop_connected (s : PicoFCMNotifierClass) (lastReported : wl_status_t) (env : Env)
    (h : s._status = .PROVISION_CONNECTING) (hc : env.wifiStatus = .WL_CONNECTED) :
    loop s lastReported env =
      ((setStatus s .PROVISION_CONNECTED).1, env.wifiStatus,
       [.btstackLoop, .bleNotifyUpdate] ++ (setStatus s .PROVISION_CONNECTED).2 ++
         wifiReport s._wifiStatusCallback lastReported env.wifiStatus) := by
  rw [loop_eq s lastReported env (setStatus s .PROVISION_CONNECTED) (by simp [h, hc]),
    setStatus_wifiCallback]
  rfl

/-- The tick while connecting, network reports a failure. -/
theorem loop_failed (s : PicoFCMNotifierClass) (lastReported : wl_status_t) (env : Env)
    (h : s._status = .PROVISION_CONNECTING)
    (hf : env.wifiStatus = .WL_CONNECT_FAILED ∨ env.wifiStatus = .WL_NO_SSID_AVAIL) :
    loop s lastReported env =
      ((setStatus s .PROVISION_FAILED).1, env.wifiStatus,
       [.btstackLoop, .bleNotifyUpdate] ++ (setStatus s .PROVISION_FAILED).2 ++
         wifiReport s._wifiStatusCallback lastReported env.wifiStatus) := by
  have hc : env.wifiStatus ≠ .WL_CONNECTED := by
    rcases hf with hf | hf <;> rw [hf] <;> decide
  rw [loop_eq s lastReported env (setStatus s .PROVISION_FAILED) (by simp [h, hc, hf]),
    setStatus_wifiCallback]
  rfl

/-- The tick while connecting, no verdict from the network, the timeout has passed. -/
theorem loop_timeout (s : PicoFCMNotifierClass) (lastReported : wl_status_t) (env : Env)
    (h : s._status = .PROVISION_CONNECTING) (hc : env.wifiStatus ≠ .WL_CONNECTED)
    (hf : ¬ (env.wifiStatus = .WL_CONNECT_FAILED ∨ env.wifiStatus = .WL_NO_SSID_AVAIL))
    (ht : sub32 env.millis s._connectionStartTime > WIFI_CONNECT_TIMEOUT_MS) :
    loop s lastReported env =
      ((setStatus s .PROVISION_FAILED).1, env.wifiStatus,
       [.btstackLoop, .bleNotifyUpdate] ++
         ((setStatus s .PROVISION_FAILED).2 ++ [.wifiDisconnect]) ++
         wifiReport s._wifiStatusCallback lastReported env.wifiStatus) := by
  rw [loop_eq s lastReported env
    ((setStatus s .PROVISION_FAILED).1, (setStatus s .PROVISION_FAILED).2 ++ [.wifiDisconnect])
    (by simp [h, hc, hf, ht])]
  simp only [setStatus_wifiCallback]
  rfl

/-- The tick while connecting, no verdict from the network, the timeout has not passed. -/
theorem loop_waiting (s : PicoFCMNotifierClass) (lastReported : wl_status_t) (env : Env)
    (h : s._status = .PROVISION_CONNECTING) (hc : env.wifiStatus ≠ .WL_CONNECTED)
    (hf : ¬ (env.wifiStatus = .WL_CONNECT_FAILED ∨ env.wifiStatus = .WL_NO_SSID_AVAIL))
    (ht : ¬ sub32 env.millis s._connectionStartTime > WIFI_CONNECT_TIMEOUT_MS) :
    loop s lastReported env =
      (s, env.wifiStatus,
       [.btstackLoop, .bleNotifyUpdate] ++
         wifiReport s._wifiStatusCallback lastReported env.wifiStatus) := by
  rw [loop_eq s lastReported env (s, []) (by simp [h, hc, hf, ht])]
  simp only [List.append_nil]
  rfl

/-- The elapsed time computed by `loop` is the true elapsed time as long as that is less
than 2^32 ms. -/
theorem sub32_elapsed (start elapsed : Nat) (hs : start < 4294967296)
    (he : elapsed < 4294967296) :
    sub32 ((start + elapsed) % 4294967296) start = elapsed := by
  unfold sub32
  omega

theorem loop_events_filter (X : List Event) (callback : Option Nat)
    (lastReported current : wl_status_t) (p : Event → Bool)
    (h1 : p .btstackLoop = false) (h2 : p .bleNotifyUpdate = false)
    (h3 : ∀ c st, p (.wifiStatusCallback c st) = false) :
    List.filter p ([.btstackLoop, .bleNotifyUpdate] ++ X ++
      wifiReport callback lastReported current) = List.filter p X := by
  rw [List.filter_append, List.filter_append, wifiReport_filter _ _ _ p h3]
  simp [List.filter_cons, h1, h2]

theorem loop_events_disconnect (X : List Event) (callback : Option Nat)
    (lastReported current : wl_status_t) :
    Event.wifiDisconnect ∈ ([.btstackLoop, .bleNotifyUpdate] ++ X ++
      wifiReport callback lastReported current) ↔ Event.wifiDisconnect ∈ X := by
  have := wifiReport_no_disconnect callback lastReported current
  simp [this]

/-- C11: one tick of `loop` with status Connecting. If the network reports connected the
status becomes Connected; if it reports connect-failed or no-SSID-available the status
becomes Failed and `WiFi.disconnect` is not called; this is so whatever the clock reads;
and in every case `_status` is assigned at most once and the status callback is invoked
at most once during the tick. -/
theorem C11_poll_status_precedence (s : PicoFCMNotifierClass) (lastReported : wl_status_t)
    (env : Env) (h : s._status = .PROVISION_CONNECTING) :
    (env.wifiStatus = .WL_CONNECTED →
      (loop s lastReported env).1._status = .PROVISION_CONNECTED ∧
      Event.wifiDisconnect ∉ (loop s lastReported env).2.2) ∧
    (env.wifiStatus = .WL_CONNECT_FAILED ∨ env.wifiStatus = .WL_NO_SSID_AVAIL →
      (loop s lastReported env).1._status = .PROVISION_FAILED ∧
      Event.wifiDisconnect ∉ (loop s lastReported env).2.2) ∧
    ((loop s lastReported env).2.2.filter Event.isStatusAssigned).length ≤ 1 ∧
    ((loop s lastReported env).2.2.filter Event.isStatusCallback).length ≤ 1 := by
  refine ⟨?_, ?_, ?_⟩
  · intro hc
    rw [loop_connected s lastReported env h hc]
    refine ⟨setStatus_status _ _, ?_⟩
    show Event.wifiDisconnect ∉ _
    rw [loop_events_disconnect]
    exact (setStatus_events s _).2.2.1
  · intro hf
    rw [loop_failed s lastReported env h hf]
    refine ⟨setStatus_status _ _, ?_⟩
    show Event.wifiDisconnect ∉ _
    rw [loop_events_disconnect]
    exact (setStatus_events s _).2.2.1
  · by_cases hc : env.wifiStatus = .WL_CONNECTED
    · rw [loop_connected s lastReported env h hc]
      simp only []
      rw [loop_events_filter _ _ _ _ _ rfl rfl (fun _ _ => rfl),
        loop_events_filter _ _ _ _ _ rfl rfl (fun _ _ => rfl)]
      exact ⟨(setStatus_events s _).1, (setStatus_events s _).2.1⟩
    · by_cases hf : env.wifiStatus = .WL_CONNECT_FAILED ∨ env.wifiStatus = .WL_NO_SSID_AVAIL
      · rw [loop_failed s lastReported env h hf]
        simp only []
        rw [loop_events_filter _ _ _ _ _ rfl rfl (fun _ _ => rfl),
          loop_events_filter _ _ _ _ _ rfl rfl (fun _ _ => rfl)]
        exact ⟨(setStatus_events s _).1, (setStatus_events s _).2.1⟩
      · by_cases ht : sub32 env.millis s._connectionStartTime > WIFI_CONNECT_TIMEOUT_MS
        · rw [loop_timeout s lastReported env h hc hf ht]
          simp only []
          rw [loop_events_filter _ _ _ _ _ rfl rfl (fun _ _ => rfl),
            loop_events_filter _ _ _ _ _ rfl rfl (fun _ _ => rfl)]
          rw [List.filter_append, List.filter_append]
          simp only [List.filter_cons, Event.isStatusAssigned, Event.isStatusCallback,
            List.filter_nil, List.append_nil, Bool.false_eq_true, if_false]
          exact ⟨(setStatus_events s _).1, (setStatus_events s _).2.1⟩
        · rw [loop_waiting s lastReported env h hc hf ht]
          simp only []
          have e1 := loop_events_filter [] s._wifiStatusCallback lastReported env.wifiStatus
            Event.isStatusAssigned rfl rfl (fun _ _ => rfl)
          have e2 := loop_events_filter [] s._wifiStatusCallback lastReported env.wifiStatus
            Event.isStatusCallback rfl rfl (fun _ _ => rfl)
          simp only [List.append_nil] at e1 e2
          rw [e1, e2]
          simp

/-- C11 on the store with an attempt started at time 0, polled at time 20000 (past the
timeout): a connected network gives Connected, a failed one gives Failed without a
disconnect, each with one callback invocation. -/
theorem C11_poll_status_precedence_witness :
    connectingStore._status = .PROVISION_CONNECTING ∧
    (loop connectingStore .WL_NO_SHIELD
      { idleEnv 20000 with wifiStatus := .WL_CONNECTED }).1._status = .PROVISION_CONNECTED ∧
    (loop connectingStore .WL_NO_SHIELD
      { idleEnv 20000 with wifiStatus := .WL_CONNECT_FAILED }).1._status = .PROVISION_FAILED ∧
    Event.wifiDisconnect ∉ (loop connectingStore .WL_NO_SHIELD
      { idleEnv 20000 with wifiStatus := .WL_CONNECT_FAILED }).2.2 ∧
    ((loop connectingStore .WL_NO_SHIELD
      { idleEnv 20000 with wifiStatus := .WL_CONNECTED }).2.2.filter
        Event.isStatusCallback).length = 1 :=
  have hc := C11_poll_status_precedence connectingStore .WL_NO_SHIELD
    { idleEnv 20000 with wifiStatus := .WL_CONNECTED } rfl
  have hf := C11_poll_status_precedence connectingStore .WL_NO_SHIELD
    { idleEnv 20000 with wifiStatus := .WL_CONNECT_FAILED } rfl
  ⟨rfl, (hc.1 rfl).1, (hf.2.1 (Or.inl rfl)).1, (hf.2.1 (Or.inl rfl)).2, by decide⟩

/-- C12 (as stated, refuted): an attempt started at time 0, polled at time 15000 with the
network idle: the elapsed time is 15000, yet the status stays Connecting and
`WiFi.disconnect` is not called. -/
theorem C12_timeout_counterexample :
    connectingStore._status = .PROVISION_CONNECTING ∧
    sub32 (idleEnv 15000).millis connectingStore._connectionStartTime = 15000 ∧
    (loop connectingStore .WL_NO_SHIELD (idleEnv 15000)).1._status = .PROVISION_CONNECTING ∧
    Event.wifiDisconnect ∉ (loop connectingStore .WL_NO_SHIELD (idleEnv 15000)).2.2 := by
  decide

/-- C12 (amended): one tick of `loop` with status Connecting and a network status that is
neither connected nor connect-failed nor no-SSID-available. Whenever the time elapsed
since the recorded start exceeds 15000 ms (and is within the 2^32 ms range of the
counter), the status becomes Failed and `WiFi.disconnect` is called. -/
theorem C12_timeout_when_exceeded (s : PicoFCMNotifierClass) (lastReported : wl_status_t)
    (env : Env) (elapsed : Nat)
    (h : s._status = .PROVISION_CONNECTING)
    (hc : env.wifiStatus ≠ .WL_CONNECTED)
    (hf : env.wifiStatus ≠ .WL_CONNECT_FAILED) (hn : env.wifiStatus ≠ .WL_NO_SSID_AVAIL)
    (hstart : s._connectionStartTime < 4294967296) (hrange : elapsed < 4294967296)
    (hnow : env.millis = (s._connectionStartTime + elapsed) % 4294967296)
    (hlate : elapsed > 15000) :
    (loop s lastReported env).1._status = .PROVISION_FAILED ∧
    Event.wifiDisconnect ∈ (loop s lastReported env).2.2 := by
  have ht : sub32 env.millis s._connectionStartTime > WIFI_CONNECT_TIMEOUT_MS := by
    rw [hnow, sub32_elapsed _ _ hstart hrange]
    exact hlate
  rw [loop_timeout s lastReported env h hc (by simp [hf, hn]) ht]
  refine ⟨setStatus_status _ _, ?_⟩
  show Event.wifiDisconnect ∈ _
  rw [loop_events_disconnect]
  simp

/-- C12 (amended) on the attempt started at time 0 and polled at time 15001. -/
theorem C12_timeout_when_exceeded_witness :
    connectingStore._status = .PROVISION_CONNECTING ∧
    (loop connectingStore .WL_NO_SHIELD (idleEnv 15001)).1._status = .PROVISION_FAILED ∧
    Event.wifiDisconnect ∈ (loop connectingStore .WL_NO_SHIELD (idleEnv 15001)).2.2 :=
  have h := C12_timeout_when_exceeded connectingStore .WL_NO_SHIELD (idleEnv 15001) 15001
    rfl (by decide) (by decide) (by decide) (by decide) (by decide) (by decide) (by decide)
  ⟨rfl, h.1, h.2⟩

/-- C13: one tick of `loop` with status Connecting and a network status that is neither
connected nor connect-failed nor no-SSID-available. Whenever the time elapsed since the
recorded start does not exceed 15000 ms, the object is unchanged (status Connecting,
start time and all the rest), `_status` is not assigned, the status callback is not
invoked and `WiFi.disconnect` is not called. -/
theorem C13_no_transition_before_timeout (s : PicoFCMNotifierClass)
    (lastReported : wl_status_t) (env : Env) (elapsed : Nat)
    (h : s._status = .PROVISION_CONNECTING)
    (hc : env.wifiStatus ≠ .WL_CONNECTED)
    (hf : env.wifiStatus ≠ .WL_CONNECT_FAILED) (hn : env.wifiStatus ≠ .WL_NO_SSID_AVAIL)
    (hstart : s._connectionStartTime < 4294967296)
    (hnow : env.millis = (s._connectionStartTime + elapsed) % 4294967296)
    (hearly : elapsed ≤ 15000) :
    (loop s lastReported env).1 = s ∧
    (loop s lastReported env).1._status = .PROVISION_CONNECTING ∧
    (loop s lastReported env).1._connectionStartTime = s._connectionStartTime ∧
    (loop s lastReported env).2.2.filter Event.isStatusAssigned = [] ∧
    (loop s lastReported env).2.2.filter Event.isStatusCallback = [] ∧
    Event.wifiDisconnect ∉ (loop s lastReported env).2.2 := by
  have ht : ¬ sub32 env.millis s._connectionStartTime > WIFI_CONNECT_TIMEOUT_MS := by
    rw [hnow, sub32_elapsed _ _ hstart (by omega)]
    unfold WIFI_CONNECT_TIMEOUT_MS
    omega
  rw [loop_waiting s lastReported env h hc (by simp [hf, hn]) ht]
  have e1 := loop_events_filter [] s._wifiStatusCallback lastReported env.wifiStatus
    Event.isStatusAssigned rfl rfl (fun _ _ => rfl)
  have e2 := loop_events_filter [] s._wifiStatusCallback lastReported env.wifiStatus
    Event.isStatusCallback rfl rfl (fun _ _ => rfl)
  have e3 := loop_events_disconnect [] s._wifiStatusCallback lastReported env.wifiStatus
  simp only [List.append_nil] at e1 e2 e3
  refine ⟨rfl, h, rfl, e1, e2, ?_⟩
  show Event.wifiDisconnect ∉ _
  rw [e3]
  simp

/-- C13 on the scenario of the specification: attempt started at time 0; the poll at
time 14999 changes nothing, the poll at time 15001 gives Failed and a disconnect. -/
theorem C13_no_transition_before_timeout_witness :
    connectingStore._status = .PROVISION_CONNECTING ∧
    (loop connectingStore .WL_NO_SHIELD (idleEnv 14999)).1 = connectingStore ∧
    (loop connectingStore .WL_NO_SHIELD (idleEnv 14999)).2.2.filter Event.isStatusCallback
      = [] ∧
    Event.wifiDisconnect ∉ (loop connectingStore .WL_NO_SHIELD (idleEnv 14999)).2.2 ∧
    (loop connectingStore .WL_NO_SHIELD (idleEnv 15001)).1._status = .PROVISION_FAILED ∧
    Event.wifiDisconnect ∈ (loop connectingStore .WL_NO_SHIELD (idleEnv 15001)).2.2 :=
  have h := C13_no_transition_before_timeout connectingStore .WL_NO_SHIELD (idleEnv 14999)
    14999 rfl (by decide) (by decide) (by decide) (by decide) (by decide) (by decide)
  ⟨rfl, h.1, h.2.2.2.2.1, h.2.2.2.2.2, by decide, by decide⟩

/-! ## The status setter and its observer -/

/-- C14: `setStatus` with the current status leaves the object unchanged and invokes
nothing; with a different status it assigns `_status` and then invokes the registered
callback, if there is one, exactly once with the new status, and changes nothing else;
the registered callback is the one of the most recent `setStatusCallback`. -/
theorem C14_setStatus_notifies_once (s : PicoFCMNotifierClass)
    (newStatus : PicoWiFiProvisioningStatus) (first latest : Option Nat) :
    setStatus s s._status = (s, []) ∧
    (setStatusCallback (setStatusCallback s first) latest)._statusCallback = latest ∧
    (s._status ≠ newStatus →
      (setStatus s newStatus).1 = { s with _status := newStatus } ∧
      (∀ callback, s._statusCallback = some callback →
        (setStatus s newStatus).2
          = [.statusAssigned newStatus, .statusCallback callback newStatus] ∧
        (setStatus s newStatus).2.filter Event.isStatusCallback
          = [.statusCallback callback newStatus]) ∧
      (s._statusCallback = none →
        (setStatus s newStatus).2 = [.statusAssigned newStatus])) := by
  refine ⟨setStatus_same s, rfl, ?_⟩
  intro h
  rw [setStatus_other s newStatus h]
  refine ⟨rfl, ?_, ?_⟩
  · intro callback hcb
    rw [hcb]
    exact ⟨rfl, rfl⟩
  · intro hcb
    rw [hcb]

/-- C14 on a store with callback 7 registered and then callback 9: setting the current
status Idle invokes nothing; setting Connecting invokes callback 9 once, after the
assignment. -/
theorem C14_setStatus_notifies_once_witness :
    observedStore._status ≠ .PROVISION_CONNECTING ∧
    setStatus observedStore .PROVISION_IDLE = (observedStore, []) ∧
    (setStatus observedStore .PROVISION_CONNECTING).1._status = .PROVISION_CONNECTING ∧
    (setStatus observedStore .PROVISION_CONNECTING).2
      = [.statusAssigned .PROVISION_CONNECTING, .statusCallback 9 .PROVISION_CONNECTING] :=
  have h := C14_setStatus_notifies_once observedStore .PROVISION_CONNECTING (some 7) (some 9)
  ⟨by decide, h.1, congrArg PicoFCMNotifierClass._status (h.2.2 (by decide)).1,
   ((h.2.2 (by decide)).2.1 9 rfl).1⟩

/-! ## Sending a notification -/

/-- C15: `sendNotification` returns true exactly when the network is connected, the
in-memory url and token are both non-empty and the POST answers 200. When the network
is not connected, or the url or the token is empty, it returns false and calls nothing.
Otherwise it issues exactly one POST, with the stored url and token and the given title
and body, whatever the answer. -/
theorem C15_sendNotification (s : PicoFCMNotifierClass) (title body : List Byte) (env : Env) :
    ((sendNotification s title body env).1 = true ↔
      env.wifiStatus = .WL_CONNECTED ∧ strlen s._fcmUrl ≠ 0 ∧ strlen s._fcmToken ≠ 0 ∧
        env.httpResponseCode = 200) ∧
    (env.wifiStatus ≠ .WL_CONNECTED → sendNotification s title body env = (false, [])) ∧
    (env.wifiStatus = .WL_CONNECTED → strlen s._fcmUrl = 0 ∨ strlen s._fcmToken = 0 →
      sendNotification s title body env = (false, [])) ∧
    (env.wifiStatus = .WL_CONNECTED → strlen s._fcmUrl ≠ 0 → strlen s._fcmToken ≠ 0 →
      (sendNotification s title body env).2.filter Event.isHttpPost
        = [.httpPost (cstr s._fcmUrl) (cstr s._fcmToken) (cstr title) (cstr body)]) := by
  by_cases hc : env.wifiStatus = .WL_CONNECTED
  · by_cases hu : strlen s._fcmUrl = 0
    · simp [sendNotification, hc, hu]
    · by_cases ht : strlen s._fcmToken = 0
      · simp [sendNotification, hc, hu, ht]
      · refine ⟨by simp [sendNotification, hc, hu, ht], by simp [hc], ?_, ?_⟩
        · intro _ h; rcases h with h | h
          · exact absurd h hu
          · exact absurd h ht
        · intro _ _ _
          by_cases hpos : env.httpResponseCode > 0 <;>
            simp [sendNotification, hc, hu, ht, hpos, Event.isHttpPost, List.filter_cons]
  · simp [sendNotification, hc]

/-- C15 on the store with endpoint "u1", "t1": answer 200 gives true, answer 500 and the
transport error -1 give false with one POST and no second one; with the network idle
nothing is sent. -/
theorem C15_sendNotification_witness :
    (onlineEnv 500).wifiStatus = .WL_CONNECTED ∧
    (sendNotification restartedStore [104, 105] [33] (onlineEnv 200)).1 = true ∧
    (sendNotification restartedStore [104, 105] [33] (onlineEnv 500)).1 = false ∧
    (sendNotification restartedStore [104, 105] [33] (onlineEnv 500)).2.filter Event.isHttpPost
      = [.httpPost [117, 49] [116, 49] [104, 105] [33]] ∧
    ((sendNotification restartedStore [104, 105] [33] (onlineEnv (-1))).2.filter
      Event.isHttpPost).length = 1 ∧
    sendNotification restartedStore [104, 105] [33] (idleEnv 0) = (false, []) :=
  have h := C15_sendNotification restartedStore [104, 105] [33] (onlineEnv 500)
  have hidle := C15_sendNotification restartedStore [104, 105] [33] (idleEnv 0)
  ⟨rfl, by set_option maxRecDepth 100000 in decide,
   by set_option maxRecDepth 100000 in decide,
   h.2.2.2 rfl (by set_option maxRecDepth 100000 in decide)
     (by set_option maxRecDepth 100000 in decide),
   by set_option maxRecDepth 100000 in decide,
   hidle.2.1 (by decide)⟩

/-! ## Connection attempts -/

theorem connectToNetwork_empty (s : PicoFCMNotifierClass) (ssid password : List Byte)
    (env : Env) (h : strlen ssid = 0) : connectToNetwork s (some ssid) password env = (s, []) := by
  simp [connectToNetwork, h]

theorem connectToNetwork_begin (s : PicoFCMNotifierClass) (ssid password : List Byte)
    (env : Env) (h : strlen ssid ≠ 0) :
    connectToNetwork s (some ssid) password env =
      ({ (setStatus s .PROVISION_CONNECTING).1 with _connectionStartTime := env.millis },
       (setStatus s .PROVISION_CONNECTING).2 ++ [.stopAdvertising] ++
         (match (setStatus s .PROVISION_CONNECTING).1._connectedDevice with
          | some device => [.bleDisconnect device]
          | none => []) ++
         (if env.wifiStatus ≠ .WL_DISCONNECTED then [.wifiDisconnect] else []) ++
         [.wifiBegin (cstr ssid) (cstr password), .startTimeAssigned env.millis]) := by
  simp [connectToNetwork, h]

theorem setStatus_frame (s : PicoFCMNotifierClass) (newStatus : PicoWiFiProvisioningStatus) :
    (setStatus s newStatus).1 = { s with _status := newStatus } := by
  by_cases h : s._status = newStatus
  · rw [← h, setStatus_same]
  · rw [setStatus_other s newStatus h]

/-- What an attempt with a non-empty ssid does: status Connecting, start time set to the
clock, nothing else changed, and exactly one `WiFi.begin`, with that ssid and password. -/
theorem connectToNetwork_spec (s : PicoFCMNotifierClass) (ssid password : List Byte)
    (env : Env) (h : strlen ssid ≠ 0) :
    (connectToNetwork s (some ssid) password env).1 =
      { s with _status := .PROVISION_CONNECTING, _connectionStartTime := env.millis } ∧
    (connectToNetwork s (some ssid) password env).2.filter Event.isWifiBegin
      = [.wifiBegin (cstr ssid) (cstr password)] := by
  rw [connectToNetwork_begin s ssid password env h]
  constructor
  · simp only [setStatus_frame]
  · have hs := (setStatus_events s .PROVISION_CONNECTING).2.2.2
    have hfil : (setStatus s .PROVISION_CONNECTING).2.filter Event.isWifiBegin = [] := by
      rw [List.filter_eq_nil_iff]
      intro e he
      simp [hs e he]
    simp only [List.filter_append, hfil]
    cases (setStatus s .PROVISION_CONNECTING).1._connectedDevice <;>
      by_cases hd : env.wifiStatus = .WL_DISCONNECTED <;>
      simp [List.filter_cons, Event.isWifiBegin, hd]

theorem firstEnabled_eq_some {s : PicoFCMNotifierClass} {i : Nat} :
    (List.range s._networkCount).find? (fun i => (s.net i).enabled) = some i ↔
      (s.net i).enabled = true ∧ i < s._networkCount ∧
        ∀ j, j < i → (s.net j).enabled = false := by
  simp

/-- The guard of `connectToStoredNetworks`. -/
theorem connectToStoredNetworks_busy (s : PicoFCMNotifierClass) (env : Env)
    (h : s._status = .PROVISION_CONNECTING ∨ s._status = .PROVISION_CONNECTED) :
    connectToStoredNetworks s env = (false, s, []) := by
  simp [connectToStoredNetworks, h]

theorem connectToStoredNetworks_first (s : PicoFCMNotifierClass) (env : Env) (i : Nat)
    (h1 : s._status ≠ .PROVISION_CONNECTING) (h2 : s._status ≠ .PROVISION_CONNECTED)
    (hi : i < s._networkCount) (hen : (s.net i).enabled = true)
    (hfirst : ∀ j, j < i → (s.net j).enabled = false) :
    (connectToStoredNetworks s env).2 =
      connectToNetwork s (some (s.net i).ssid) (s.net i).password env := by
  have hfind := firstEnabled_eq_some.mpr ⟨hen, hi, hfirst⟩
  have hcount : s._networkCount ≠ 0 := by omega
  simp only [connectToStoredNetworks, h1, h2, or_self, if_false, hcount, hfind]

theorem processCommand_connect_pending (s : PicoFCMNotifierClass) (file : ConfigFile)
    (env : Env) (h : strlen s._receivedSSID ≠ 0) :
    processCommand s file CMD_CONNECT env =
      ((connectToNetwork s (some s._receivedSSID) s._receivedPassword env).1, file,
       (connectToNetwork s (some s._receivedSSID) s._receivedPassword env).2) := by
  have hpos : strlen s._receivedSSID > 0 := Nat.pos_of_ne_zero h
  simp [processCommand, CMD_CONNECT, CMD_SAVE_NETWORK, hpos]

theorem processCommand_connect_stored (s : PicoFCMNotifierClass) (file : ConfigFile)
    (env : Env) (h : strlen s._receivedSSID = 0) :
    processCommand s file CMD_CONNECT env =
      ((connectToStoredNetworks s env).2.1, file, (connectToStoredNetworks s env).2.2) := by
  simp [processCommand, CMD_CONNECT, CMD_SAVE_NETWORK, h]

/-- C16 (as stated, refuted): with no pending name and the enabled entry "Home" stored, a
Connect command in status Connected calls nothing and leaves the status Connected; and
in status Idle, with an enabled first entry whose stored name is empty, it calls nothing
and leaves the status Idle. -/
theorem C16_connect_counterexample :
    (connectedStore._status ≠ .PROVISION_CONNECTING ∧
      strlen connectedStore._receivedSSID = 0 ∧
      0 < connectedStore._networkCount ∧ (connectedStore.net 0).enabled = true ∧
      (processCommand connectedStore .missing CMD_CONNECT (idleEnv 0)).2.2 = [] ∧
      (processCommand connectedStore .missing CMD_CONNECT (idleEnv 0)).1._status
        = .PROVISION_CONNECTED) ∧
    (emptyNameFirstStore._status = .PROVISION_IDLE ∧
      strlen emptyNameFirstStore._receivedSSID = 0 ∧
      0 < emptyNameFirstStore._networkCount ∧ (emptyNameFirstStore.net 0).enabled = true ∧
      (processCommand emptyNameFirstStore .missing CMD_CONNECT (idleEnv 0)).2.2 = [] ∧
      (processCommand emptyNameFirstStore .missing CMD_CONNECT (idleEnv 0)).1._status
        = .PROVISION_IDLE) := by
  set_option maxRecDepth 100000 in decide

/-- C16 (amended): a Connect command with a non-empty pending name, in any status other
than Connecting, calls `WiFi.begin` once, with the pending name and password, sets the
status to Connecting and leaves slots, count and file unchanged. With an empty pending
name, in a status that is neither Connecting nor Connected, and with entry `i` the first
enabled entry and its stored name non-empty, it calls `WiFi.begin` once, with the name
and password of entry `i`, and sets the status to Connecting. -/
theorem C16_connect_command (s : PicoFCMNotifierClass) (file : ConfigFile) (env : Env)
    (hstatus : s._status ≠ .PROVISION_CONNECTING) :
    (strlen s._receivedSSID ≠ 0 →
      (processCommand s file CMD_CONNECT env).2.2.filter Event.isWifiBegin
        = [.wifiBegin (cstr s._receivedSSID) (cstr s._receivedPassword)] ∧
      (processCommand s file CMD_CONNECT env).1._status = .PROVISION_CONNECTING ∧
      (processCommand s file CMD_CONNECT env).1._networks = s._networks ∧
      (processCommand s file CMD_CONNECT env).1._networkCount = s._networkCount ∧
      entries (processCommand s file CMD_CONNECT env).1 = entries s ∧
      (processCommand s file CMD_CONNECT env).2.1 = file) ∧
    (strlen s._receivedSSID = 0 → s._status ≠ .PROVISION_CONNECTED →
      ∀ i, i < s._networkCount → (s.net i).enabled = true →
        (∀ j, j < i → (s.net j).enabled = false) → strlen (s.net i).ssid ≠ 0 →
          (processCommand s file CMD_CONNECT env).2.2.filter Event.isWifiBegin
            = [.wifiBegin (cstr (s.net i).ssid) (cstr (s.net i).password)] ∧
          (processCommand s file CMD_CONNECT env).1._status = .PROVISION_CONNECTING ∧
          entries (processCommand s file CMD_CONNECT env).1 = entries s ∧
          (processCommand s file CMD_CONNECT env).2.1 = file) := by
  constructor
  · intro hname
    rw [processCommand_connect_pending s file env hname]
    obtain ⟨hst, hev⟩ := connectToNetwork_spec s s._receivedSSID s._receivedPassword env hname
    refine ⟨hev, ?_, ?_, ?_, ?_, rfl⟩ <;> first | (simp only [hst]; done) | (simp only [hst]; rfl)
  · intro hname hconn i hi hen hfirst hssid
    rw [processCommand_connect_stored s file env hname,
      connectToStoredNetworks_first s env i hstatus hconn hi hen hfirst]
    obtain ⟨hst, hev⟩ := connectToNetwork_spec s (s.net i).ssid (s.net i).password env hssid
    refine ⟨hev, ?_, ?_, rfl⟩ <;> first | (simp only [hst]; done) | (simp only [hst]; rfl)

/-- C16 (amended) on two stores holding "Home": in status Failed with pending name "A"
and password "b" the Connect command begins with ("A", "b"); in status Idle with no
pending name it begins with the stored ("Home", "pw1"). -/
theorem C16_connect_command_witness :
    failedPending._status ≠ .PROVISION_CONNECTING ∧
    (processCommand failedPending .missing CMD_CONNECT (idleEnv 5)).2.2.filter
      Event.isWifiBegin = [.wifiBegin [65] [98]] ∧
    (processCommand failedPending .missing CMD_CONNECT (idleEnv 5)).1._status
      = .PROVISION_CONNECTING ∧
    (processCommand homeStore .missing CMD_CONNECT (idleEnv 5)).2.2.filter
      Event.isWifiBegin = [.wifiBegin [72, 111, 109, 101] [112, 119, 49]] ∧
    (processCommand homeStore .missing CMD_CONNECT (idleEnv 5)).1._status
      = .PROVISION_CONNECTING :=
  have hp := (C16_connect_command failedPending .missing (idleEnv 5) (by decide)).1
    (by decide)
  have hs := (C16_connect_command homeStore .missing (idleEnv 5) (by decide)).2
    (by decide) (by decide) 0 (by decide) (by decide) (by intro j hj; omega) (by decide)
  ⟨by decide, hp.1, hp.2.1, hs.1, hs.2.1⟩

/-- C17 (as stated, refuted): in status Connecting with the pending name "A", a Connect
command at time 99 calls `WiFi.begin` with "A" and moves the recorded start time from 0
to 99; so does a direct call of `connectToNetwork`. -/
theorem C17_begin_while_connecting_counterexample :
    connectingPending._status = .PROVISION_CONNECTING ∧
    connectingPending._connectionStartTime = 0 ∧
    Event.wifiBegin [65] [] ∈
      (processCommand connectingPending .missing CMD_CONNECT (idleEnv 99)).2.2 ∧
    (processCommand connectingPending .missing CMD_CONNECT (idleEnv 99)).1._connectionStartTime
      = 99 ∧
    Event.wifiBegin [72, 111, 109, 101] [120] ∈
      (connectToNetwork connectingPending (some [72, 111, 109, 101]) [120] (idleEnv 99)).2 ∧
    (connectToNetwork connectingPending (some [72, 111, 109, 101]) [120]
      (idleEnv 99)).1._connectionStartTime = 99 := by
  set_option maxRecDepth 100000 in decide

/-- C17 (amended): in status Connecting, `connectToStoredNetworks` returns false, changes
nothing and calls nothing, and so does a Connect command when the pending name is empty:
no `WiFi.begin`, start time unchanged. -/
theorem C17_stored_attempt_guarded (s : PicoFCMNotifierClass) (file : ConfigFile) (env : Env)
    (h : s._status = .PROVISION_CONNECTING) :
    connectToStoredNetworks s env = (false, s, []) ∧
    (strlen s._receivedSSID = 0 →
      processCommand s file CMD_CONNECT env = (s, file, []) ∧
      (processCommand s file CMD_CONNECT env).2.2.filter Event.isWifiBegin = [] ∧
      (processCommand s file CMD_CONNECT env).1._connectionStartTime
        = s._connectionStartTime) := by
  have hbusy := connectToStoredNetworks_busy s env (Or.inl h)
  refine ⟨hbusy, ?_⟩
  intro hname
  rw [processCommand_connect_stored s file env hname, hbusy]
  exact ⟨rfl, rfl, rfl⟩

/-- C17 (amended) on the store with an attempt under way since time 0 and no pending
name: a Connect command at time 99 changes nothing. -/
theorem C17_stored_attempt_guarded_witness :
    connectingStore._status = .PROVISION_CONNECTING ∧
    connectToStoredNetworks connectingStore (idleEnv 99) = (false, connectingStore, []) ∧
    processCommand connectingStore .missing CMD_CONNECT (idleEnv 99)
      = (connectingStore, .missing, []) :=
  have h := C17_stored_attempt_guarded connectingStore .missing (idleEnv 99) rfl
  ⟨rfl, h.1, (h.2 (by decide)).1⟩

/-! ## The commands -/

theorem saveNetwork_status (s : PicoFCMNotifierClass) (ssid : Option (List Byte))
    (password : List Byte) : (saveNetwork s ssid password).2._status = s._status := by
  cases ssid with
  | none => rfl
  | some z =>
    by_cases hz : strlen z = 0
    · rw [saveNetwork_empty s z password hz]
    · cases hi : existingIndex s z with
      | some i => rw [saveNetwork_update s z password i hz hi]
      | none =>
        by_cases hc : s._networkCount < MAX_WIFI_NETWORKS
        · rw [saveNetwork_append s z password hz hi hc]
        · rw [saveNetwork_full s z password hz hi hc]

theorem saveConfigToFlash_store (s : PicoFCMNotifierClass) (file : ConfigFile)
    (openOk written : Bool) :
    (saveConfigToFlash s file openOk written).2.1._networks = s._networks ∧
    (saveConfigToFlash s file openOk written).2.1._networkCount = s._networkCount ∧
    (saveConfigToFlash s file openOk written).2.1._status = s._status := by
  cases openOk <;> cases written <;> exact ⟨rfl, rfl, rfl⟩

theorem processCommand_save (s : PicoFCMNotifierClass) (file : ConfigFile) (env : Env)
    (h : strlen s._receivedSSID ≠ 0) :
    processCommand s file CMD_SAVE_NETWORK env =
      ((saveConfigToFlash (saveNetwork s (some s._receivedSSID) s._receivedPassword).2 file
          env.openOk env.written).2.1,
       (saveConfigToFlash (saveNetwork s (some s._receivedSSID) s._receivedPassword).2 file
          env.openOk env.written).2.2,
       saveConfigToFlashCalls env.openOk) := by
  have hpos : strlen s._receivedSSID > 0 := Nat.pos_of_ne_zero h
  simp [processCommand, hpos]

/-- The networks list of the document built from a store is the list of its entries. -/
theorem buildDocument_networks (s : PicoFCMNotifierClass)
    (hc : s._networkCount ≤ s._networks.length) :
    (buildDocument s).networks =
      (entries s).map (fun e =>
        ({ ssid := some e.1, password := some e.2.1, enabled := some e.2.2 } : JsonNetwork)) := by
  unfold buildDocument entries
  simp only [PicoFCMNotifierClass.net, List.map_map]
  rw [range_map_getD s._networks blankNetwork
    (fun n => ({ ssid := some (cstr n.ssid), password := some (cstr n.password),
                 enabled := some n.enabled } : JsonNetwork)) s._networkCount hc]
  rfl

/-- C18: a SaveNetwork command with a non-empty pending name leaves exactly the slots,
count and entries that `saveNetwork(pending name, pending password)` produces, leaves the
status unchanged, calls nothing but the file system (no `WiFi.begin`), and when the write
succeeds the file holds a record whose networks list is the list of the resulting
entries, in order. -/
theorem C18_save_command (s : PicoFCMNotifierClass) (file : ConfigFile) (env : Env)
    (hwf : WellFormed s) (hname : strlen s._receivedSSID ≠ 0) :
    (processCommand s file CMD_SAVE_NETWORK env).1._networks
      = (saveNetwork s (some s._receivedSSID) s._receivedPassword).2._networks ∧
    (processCommand s file CMD_SAVE_NETWORK env).1._networkCount
      = (saveNetwork s (some s._receivedSSID) s._receivedPassword).2._networkCount ∧
    entries (processCommand s file CMD_SAVE_NETWORK env).1
      = entries (saveNetwork s (some s._receivedSSID) s._receivedPassword).2 ∧
    (processCommand s file CMD_SAVE_NETWORK env).1._status = s._status ∧
    (processCommand s file CMD_SAVE_NETWORK env).2.2.filter Event.isWifiBegin = [] ∧
    (∀ e ∈ (processCommand s file CMD_SAVE_NETWORK env).2.2,
      e = Event.fsOpenWrite ∨ e = Event.fsWrite) ∧
    (env.openOk = true → env.written = true →
      ∃ doc, (processCommand s file CMD_SAVE_NETWORK env).2.1 = .record doc ∧
        doc.networks = (entries (processCommand s file CMD_SAVE_NETWORK env).1).map
          (fun e => ({ ssid := some e.1, password := some e.2.1, enabled := some e.2.2 } :
            JsonNetwork))) := by
  rw [processCommand_save s file env hname]
  obtain ⟨hn, hc, hst⟩ := saveConfigToFlash_store
    (saveNetwork s (some s._receivedSSID) s._receivedPassword).2 file env.openOk env.written
  have hent : entries (saveConfigToFlash
      (saveNetwork s (some s._receivedSSID) s._receivedPassword).2 file
        env.openOk env.written).2.1
      = entries (saveNetwork s (some s._receivedSSID) s._receivedPassword).2 := by
    unfold entries
    rw [hn, hc]
  refine ⟨hn, hc, hent, ?_, ?_, ?_, ?_⟩
  · show (saveConfigToFlash _ file env.openOk env.written).2.1._status = s._status
    rw [hst, saveNetwork_status]
  · cases env.openOk <;> rfl
  · intro e he
    cases ho : env.openOk <;> rw [ho] at he <;> simp [saveConfigToFlashCalls] at he
    · exact Or.inl he
    · exact he
  · intro ho hw
    refine ⟨buildDocument (saveNetwork s (some s._receivedSSID) s._receivedPassword).2, ?_, ?_⟩
    · show (saveConfigToFlash _ file env.openOk env.written).2.2 = _
      rw [ho, hw]
      rfl
    · show _ = (entries (saveConfigToFlash _ file env.openOk env.written).2.1).map _
      rw [hent]
      apply buildDocument_networks
      have hwf2 := wellFormed_saveNetwork hwf (some s._receivedSSID) s._receivedPassword
      rw [hwf2.1]
      exact hwf2.2.1

/-- C18 on the store holding "Home" with pending name "A" and password "b": the command
appends ("A", "b", true), keeps status Idle, and the file written lists both networks. -/
theorem C18_save_command_witness :
    WellFormed idlePending ∧ strlen idlePending._receivedSSID ≠ 0 ∧
    entries (processCommand idlePending .missing CMD_SAVE_NETWORK (idleEnv 0)).1
      = [([72, 111, 109, 101], [112, 119, 49], true), ([65], [98], true)] ∧
    (processCommand idlePending .missing CMD_SAVE_NETWORK (idleEnv 0)).1._status
      = .PROVISION_IDLE ∧
    (processCommand idlePending .missing CMD_SAVE_NETWORK (idleEnv 0)).2.1 = .record
      { fcm_url := none, fcm_token := none,
        networks :=
          [ { ssid := some [72, 111, 109, 101], password := some [112, 119, 49],
              enabled := some true },
            { ssid := some [65], password := some [98], enabled := some true } ] } :=
  have hwf : WellFormed idlePending := by
    set_option maxRecDepth 100000 in decide
  have h := C18_save_command idlePending .missing (idleEnv 0) hwf (by decide)
  ⟨hwf, by decide, h.2.2.1, h.2.2.2.1, by set_option maxRecDepth 100000 in decide⟩

/-- C19: a Disconnect command, from every state, calls `WiFi.disconnect`, leaves the
status Idle and changes nothing else in the object nor the file; the registered status
callback is invoked exactly once, with Idle, if the status was not Idle, and not at all
if it was. -/
theorem C19_disconnect_command (s : PicoFCMNotifierClass) (file : ConfigFile) (env : Env) :
    Event.wifiDisconnect ∈ (processCommand s file CMD_DISCONNECT env).2.2 ∧
    (processCommand s file CMD_DISCONNECT env).1._status = .PROVISION_IDLE ∧
    (processCommand s file CMD_DISCONNECT env).1 = { s with _status := .PROVISION_IDLE } ∧
    (processCommand s file CMD_DISCONNECT env).2.1 = file ∧
    (∀ callback, s._statusCallback = some callback → s._status ≠ .PROVISION_IDLE →
      (processCommand s file CMD_DISCONNECT env).2.2.filter Event.isStatusCallback
        = [.statusCallback callback .PROVISION_IDLE]) ∧
    (s._status = .PROVISION_IDLE →
      (processCommand s file CMD_DISCONNECT env).2.2.filter Event.isStatusCallback = [] ∧
      (processCommand s file CMD_DISCONNECT env).1 = s) := by
  have heq : processCommand s file CMD_DISCONNECT env =
      ((setStatus s .PROVISION_IDLE).1, file,
       .wifiDisconnect :: (setStatus s .PROVISION_IDLE).2) := by
    simp [processCommand, CMD_DISCONNECT, CMD_SAVE_NETWORK, CMD_CONNECT, CMD_CLEAR_NETWORKS]
  rw [heq]
  refine ⟨by simp, setStatus_status _ _, setStatus_frame _ _, rfl, ?_, ?_⟩
  · intro callback hcb hne
    rw [setStatus_other s _ hne, hcb]
    rfl
  · intro hidle
    have := setStatus_same s
    rw [hidle] at this
    rw [this]
    exact ⟨rfl, rfl⟩

/-- C19 on the store with an attempt under way and callback 7: the command disconnects,
sets Idle and invokes callback 7 once; repeated in status Idle it invokes nothing. -/
theorem C19_disconnect_command_witness :
    connectingStore._status ≠ .PROVISION_IDLE ∧
    (processCommand connectingStore .missing CMD_DISCONNECT (idleEnv 0)).2.2
      = [.wifiDisconnect, .statusAssigned .PROVISION_IDLE, .statusCallback 7 .PROVISION_IDLE] ∧
    (processCommand connectingStore .missing CMD_DISCONNECT (idleEnv 0)).2.2.filter
      Event.isStatusCallback = [.statusCallback 7 .PROVISION_IDLE] ∧
    (processCommand idlePending .missing CMD_DISCONNECT (idleEnv 0)).2.2.filter
      Event.isStatusCallback = [] :=
  have h := C19_disconnect_command connectingStore .missing (idleEnv 0)
  have h2 := C19_disconnect_command idlePending .missing (idleEnv 0)
  ⟨by decide, by decide, h.2.2.2.2.1 7 rfl (by decide), (h2.2.2.2.2.2 rfl).1⟩

/-- A write of zero bytes to any characteristic: no command is run, nothing is called,
and only the staging buffer of the addressed field, if any, is touched. -/
theorem handleGattWrite_empty (s : PicoFCMNotifierClass) (file : ConfigFile)
    (characteristic_id : Nat) (env : Env) :
    (handleGattWrite s file characteristic_id [] env).1 = 0 ∧
    (handleGattWrite s file characteristic_id [] env).2.2.2 = [] ∧
    (handleGattWrite s file characteristic_id [] env).2.2.1 = file ∧
    (handleGattWrite s file characteristic_id [] env).2.1._status = s._status ∧
    (handleGattWrite s file characteristic_id [] env).2.1._networks = s._networks ∧
    (handleGattWrite s file characteristic_id [] env).2.1._networkCount = s._networkCount ∧
    (handleGattWrite s file characteristic_id [] env).2.1._fcmUrl = s._fcmUrl ∧
    (handleGattWrite s file characteristic_id [] env).2.1._fcmToken = s._fcmToken ∧
    (handleGattWrite s file characteristic_id [] env).2.1._connectionStartTime
      = s._connectionStartTime ∧
    (characteristic_id ≠ s._ssidCharHandle → characteristic_id ≠ s._passwordCharHandle →
      characteristic_id ≠ s._fcmUrlCharHandle → characteristic_id ≠ s._fcmTokenCharHandle →
        handleGattWrite s file characteristic_id [] env = (0, s, file, [])) := by
  unfold handleGattWrite
  simp only [List.length_nil, ge_iff_le, Nat.not_succ_le_zero, and_false, if_false,
    OfNat.zero_ne_ofNat, List.append_nil]
  split_ifs <;> simp_all

/-- C20: for every command value other than 1, 2, 3 and 5, and for SaveNetwork (1) when
the pending name is empty, `processCommand` returns the object and the file unchanged
and calls nothing. A write of zero bytes to the command characteristic calls nothing,
leaves the file, the status, the store, the endpoint and the start time unchanged, and,
the command handle differing from the four field handles, leaves the whole object
unchanged. -/
theorem C20_commands_without_effect (s : PicoFCMNotifierClass) (file : ConfigFile)
    (command : Nat) (env : Env) :
    (command ≠ 1 → command ≠ 2 → command ≠ 3 → command ≠ 5 →
      processCommand s file command env = (s, file, [])) ∧
    (strlen s._receivedSSID = 0 →
      processCommand s file CMD_SAVE_NETWORK env = (s, file, [])) ∧
    (handleGattWrite s file s._commandCharHandle [] env).2.2.2 = [] ∧
    (handleGattWrite s file s._commandCharHandle [] env).2.2.1 = file ∧
    (handleGattWrite s file s._commandCharHandle [] env).2.1._status = s._status ∧
    (handleGattWrite s file s._commandCharHandle [] env).2.1._networks = s._networks ∧
    (handleGattWrite s file s._commandCharHandle [] env).2.1._networkCount
      = s._networkCount ∧
    (handleGattWrite s file s._commandCharHandle [] env).2.1._fcmUrl = s._fcmUrl ∧
    (handleGattWrite s file s._commandCharHandle [] env).2.1._fcmToken = s._fcmToken ∧
    (handleGattWrite s file s._commandCharHandle [] env).2.1._connectionStartTime
      = s._connectionStartTime ∧
    (s._commandCharHandle ≠ s._ssidCharHandle → s._commandCharHandle ≠ s._passwordCharHandle →
      s._commandCharHandle ≠ s._fcmUrlCharHandle →
      s._commandCharHandle ≠ s._fcmTokenCharHandle →
        handleGattWrite s file s._commandCharHandle [] env = (0, s, file, [])) := by
  refine ⟨?_, ?_, ?_⟩
  · intro h1 h2 h3 h5
    simp [processCommand, CMD_SAVE_NETWORK, CMD_CONNECT, CMD_CLEAR_NETWORKS, CMD_DISCONNECT,
      h1, h2, h3, h5]
  · intro h
    simp [processCommand, h]
  · have h := handleGattWrite_empty s file s._commandCharHandle env
    exact ⟨h.2.1, h.2.2.1, h.2.2.2.1, h.2.2.2.2.1, h.2.2.2.2.2.1, h.2.2.2.2.2.2.1,
      h.2.2.2.2.2.2.2.1, h.2.2.2.2.2.2.2.2.1, h.2.2.2.2.2.2.2.2.2⟩

/-- C20 on the store with pending name "A" and distinct handles: the commands GetStatus
(4), StartScan (6), GetScanResults (7) and the unassigned value 200 change nothing, and
so does a write of zero bytes to the command characteristic (handle 7). -/
theorem C20_commands_without_effect_witness :
    processCommand serviceStore .missing CMD_GET_STATUS (idleEnv 0)
      = (serviceStore, .missing, []) ∧
    processCommand serviceStore .missing CMD_START_SCAN (idleEnv 0)
      = (serviceStore, .missing, []) ∧
    processCommand serviceStore .missing CMD_GET_SCAN_RESULTS (idleEnv 0)
      = (serviceStore, .missing, []) ∧
    processCommand serviceStore .missing 200 (idleEnv 0) = (serviceStore, .missing, []) ∧
    handleGattWrite serviceStore .missing 7 [] (idleEnv 0) = (0, serviceStore, .missing, []) :=
  ⟨(C20_commands_without_effect serviceStore .missing CMD_GET_STATUS (idleEnv 0)).1
      (by decide) (by decide) (by decide) (by decide),
   (C20_commands_without_effect serviceStore .missing CMD_START_SCAN (idleEnv 0)).1
      (by decide) (by decide) (by decide) (by decide),
   (C20_commands_without_effect serviceStore .missing CMD_GET_SCAN_RESULTS (idleEnv 0)).1
      (by decide) (by decide) (by decide) (by decide),
   (C20_commands_without_effect serviceStore .missing 200 (idleEnv 0)).1
      (by decide) (by decide) (by decide) (by decide),
   (C20_commands_without_effect serviceStore .missing 200 (idleEnv 0)).2.2.2.2.2.2.2.2.2.2
      (by decide) (by decide) (by decide) (by decide)⟩

/-! ## Writes to the field characteristics -/

theorem memcpy_zeroBuffer (cap : Nat) (buffer : List Byte) :
    memcpy (zeroBuffer (cap + 1)) buffer (min buffer.length cap) = staged cap buffer := by
  unfold memcpy zeroBuffer staged
  rw [List.drop_replicate]

theorem bufferOk_staged (cap : Nat) (buffer : List Byte) : BufferOk cap (staged cap buffer) := by
  unfold BufferOk staged
  have hk : min buffer.length cap ≤ buffer.length := Nat.min_le_left _ _
  have hc : min buffer.length cap ≤ cap := Nat.min_le_right _ _
  have hlen : (buffer.take (min buffer.length cap)).length = min buffer.length cap := by
    rw [List.length_take]; omega
  constructor
  · rw [List.length_append, hlen, List.length_replicate]; omega
  · rw [List.drop_append_eq_append_drop, hlen, List.drop_replicate,
      List.drop_of_length_le (by rw [hlen]; exact hc)]
    have : cap + 1 - min buffer.length cap - (cap - min buffer.length cap) = 1 := by omega
    rw [this]
    rfl

theorem handlesDistinct_ne {s : PicoFCMNotifierClass} (h : HandlesDistinct s) :
    s._passwordCharHandle ≠ s._ssidCharHandle ∧
    s._fcmUrlCharHandle ≠ s._ssidCharHandle ∧
    s._fcmUrlCharHandle ≠ s._passwordCharHandle ∧
    s._fcmUrlCharHandle ≠ s._commandCharHandle ∧
    s._fcmTokenCharHandle ≠ s._ssidCharHandle ∧
    s._fcmTokenCharHandle ≠ s._passwordCharHandle ∧
    s._fcmTokenCharHandle ≠ s._commandCharHandle ∧
    s._fcmTokenCharHandle ≠ s._fcmUrlCharHandle := by
  unfold HandlesDistinct at h
  simp only [List.nodup_cons, List.mem_cons, List.mem_singleton, not_or, List.not_mem_nil,
    not_false_eq_true, List.nodup_nil, and_true] at h
  obtain ⟨⟨h1, h2, h3, h4, h5⟩, ⟨h6, h7, h8, h9⟩, ⟨h10, h11, h12⟩, ⟨h13, h14⟩, h15⟩ := h
  exact ⟨Ne.symm h1, Ne.symm h4, Ne.symm h8, Ne.symm h11, Ne.symm h5, Ne.symm h9,
    Ne.symm h12, Ne.symm h15⟩

/-- C21: with pairwise distinct handles, a write of `n` bytes to the SSID, password, url
or token characteristic returns 0 and leaves the object as it was except for that field's
staging buffer, which holds the first `min n max` written bytes followed by zero bytes
only (`max` = 32, 64, 256, 256), whatever it held before; the other staging buffers, the
store, the in-memory endpoint, the status and the file are unchanged. -/
theorem C21_field_write_stages (s : PicoFCMNotifierClass) (file : ConfigFile)
    (buffer : List Byte) (env : Env) (h : HandlesDistinct s) :
    ((handleGattWrite s file s._ssidCharHandle buffer env).1 = 0 ∧
      (handleGattWrite s file s._ssidCharHandle buffer env).2.1
        = { s with _receivedSSID := staged MAX_SSID_LENGTH buffer } ∧
      (handleGattWrite s file s._ssidCharHandle buffer env).2.2.1 = file) ∧
    ((handleGattWrite s file s._passwordCharHandle buffer env).1 = 0 ∧
      (handleGattWrite s file s._passwordCharHandle buffer env).2.1
        = { s with _receivedPassword := staged MAX_PASSWORD_LENGTH buffer } ∧
      (handleGattWrite s file s._passwordCharHandle buffer env).2.2.1 = file) ∧
    ((handleGattWrite s file s._fcmUrlCharHandle buffer env).1 = 0 ∧
      (handleGattWrite s file s._fcmUrlCharHandle buffer env).2.1
        = { s with _receivedFcmUrl := staged MAX_FCM_URL_LENGTH buffer } ∧
      (handleGattWrite s file s._fcmUrlCharHandle buffer env).2.2.1 = file) ∧
    ((handleGattWrite s file s._fcmTokenCharHandle buffer env).1 = 0 ∧
      (handleGattWrite s file s._fcmTokenCharHandle buffer env).2.1
        = { s with _receivedFcmToken := staged MAX_FCM_TOKEN_LENGTH buffer } ∧
      (handleGattWrite s file s._fcmTokenCharHandle buffer env).2.2.1 = file) := by
  obtain ⟨h1, h2, h3, h4, h5, h6, h7, h8⟩ := handlesDistinct_ne h
  refine ⟨?_, ?_, ?_, ?_⟩
  · simp [handleGattWrite, memcpy_zeroBuffer]
  · simp [handleGattWrite, memcpy_zeroBuffer, h1]
  · simp [handleGattWrite, memcpy_zeroBuffer, h2, h3, h4]
  · simp [handleGattWrite, memcpy_zeroBuffer, h5, h6, h7, h8]

/-- C21 on a store whose SSID staging buffer holds "OldNetworkName": writing the two
bytes "Hi" leaves "Hi" followed by zero bytes (nothing of the old name), writing 40
bytes leaves the first 32 and the final zero, and the password staging buffer, the
entries and the status are as before. -/
theorem C21_field_write_stages_witness :
    HandlesDistinct staleStaging ∧
    (handleGattWrite staleStaging .missing 3 [72, 105] (idleEnv 0)).1 = 0 ∧
    (handleGattWrite staleStaging .missing 3 [72, 105] (idleEnv 0)).2.1._receivedSSID
      = [72, 105] ++ List.replicate 31 0 ∧
    (handleGattWrite staleStaging .missing 3 (List.replicate 40 65) (idleEnv 0)).2.1._receivedSSID
      = List.replicate 32 65 ++ [0] ∧
    (handleGattWrite staleStaging .missing 3 [72, 105] (idleEnv 0)).2.1._receivedPassword
      = staleStaging._receivedPassword ∧
    entries (handleGattWrite staleStaging .missing 3 [72, 105] (idleEnv 0)).2.1
      = entries staleStaging ∧
    (handleGattWrite staleStaging .missing 3 [72, 105] (idleEnv 0)).2.1._status
      = staleStaging._status :=
  have h := (C21_field_write_stages staleStaging .missing [72, 105] (idleEnv 0)
    (by decide)).1
  have h40 := (C21_field_write_stages staleStaging .missing (List.replicate 40 65) (idleEnv 0)
    (by decide)).1
  ⟨by decide, h.1, (congrArg PicoFCMNotifierClass._receivedSSID h.2.1).trans rfl,
   (congrArg PicoFCMNotifierClass._receivedSSID h40.2.1).trans rfl,
   (congrArg PicoFCMNotifierClass._receivedPassword h.2.1).trans rfl,
   (congrArg entries h.2.1).trans rfl,
   (congrArg PicoFCMNotifierClass._status h.2.1).trans rfl⟩

/-! ## The order of a connection attempt -/

/-- C22: for a non-empty ssid `connectToNetwork` does, in this order: `setStatus`
(Connecting; assignment and callback only if the status changes), `stopAdvertising`,
`bleDisconnect` exactly when a peer is associated, `WiFi.disconnect` exactly when the
network status is not disconnected, `WiFi.begin` with the ssid and the password, and
last the assignment of the start time from the clock; nothing else in the object
changes. For an empty or null ssid the object is unchanged and nothing is called. -/
theorem C22_connectToNetwork_order (s : PicoFCMNotifierClass) (ssid password : List Byte)
    (env : Env) :
    (strlen ssid ≠ 0 →
      (connectToNetwork s (some ssid) password env).2 =
        (if s._status ≠ .PROVISION_CONNECTING then
          Event.statusAssigned .PROVISION_CONNECTING ::
            (match s._statusCallback with
             | some callback => [.statusCallback callback .PROVISION_CONNECTING]
             | none => [])
         else []) ++
        [.stopAdvertising] ++
        (match s._connectedDevice with
         | some device => [.bleDisconnect device]
         | none => []) ++
        (if env.wifiStatus ≠ .WL_DISCONNECTED then [.wifiDisconnect] else []) ++
        [.wifiBegin (cstr ssid) (cstr password), .startTimeAssigned env.millis] ∧
      (connectToNetwork s (some ssid) password env).1 =
        { s with _status := .PROVISION_CONNECTING, _connectionStartTime := env.millis }) ∧
    (strlen ssid = 0 → connectToNetwork s (some ssid) password env = (s, [])) ∧
    connectToNetwork s none password env = (s, []) := by
  refine ⟨?_, connectToNetwork_empty s ssid password env, rfl⟩
  intro h
  rw [connectToNetwork_begin s ssid password env h]
  constructor
  · by_cases hst : s._status = .PROVISION_CONNECTING
    · have hsame := setStatus_same s
      rw [hst] at hsame
      simp only [hsame, hst, ne_eq, not_true_eq_false, if_false]
    · rw [setStatus_other s _ hst]
      simp only [ne_eq, hst, not_false_eq_true, if_true]
  · simp only [setStatus_frame]

/-- C22 on the store holding "Home" in status Idle, with callback 7 and peer 1, the
network idle, at time 42: the seven steps in order. -/
theorem C22_connectToNetwork_order_witness :
    strlen [72, 111, 109, 101] ≠ 0 ∧
    (connectToNetwork pairedStore (some [72, 111, 109, 101]) [112, 119] (idleEnv 42)).2 =
      [.statusAssigned .PROVISION_CONNECTING, .statusCallback 7 .PROVISION_CONNECTING,
       .stopAdvertising, .bleDisconnect 1, .wifiDisconnect,
       .wifiBegin [72, 111, 109, 101] [112, 119], .startTimeAssigned 42] ∧
    (connectToNetwork pairedStore (some [72, 111, 109, 101]) [112, 119]
      (idleEnv 42)).1._connectionStartTime = 42 ∧
    connectToNetwork pairedStore (some []) [112, 119] (idleEnv 42) = (pairedStore, []) :=
  have h := C22_connectToNetwork_order pairedStore [72, 111, 109, 101] [112, 119] (idleEnv 42)
  have h0 := C22_connectToNetwork_order pairedStore [] [112, 119] (idleEnv 42)
  ⟨by decide, (h.1 (by decide)).1.trans rfl,
   (congrArg PicoFCMNotifierClass._connectionStartTime (h.1 (by decide)).2).trans rfl,
   h0.2.1 rfl⟩

/-! ## A SaveNetwork command on a full store -/

/-- C23 (as stated, refuted): the store holds 5 networks, the pending name "N6" matches
none of them and the pending url is "u1"; the file holds the record of the 5 networks.
After the SaveNetwork command the in-memory url has changed from empty to "u1" and the
file is no longer the one it was: its record now has `fcm_url` "u1". -/
theorem C23_rejected_save_counterexample :
    fullPending._networkCount = 5 ∧
    strlen fullPending._receivedSSID ≠ 0 ∧
    (∀ i, i < fullPending._networkCount →
      cstr (fullPending.net i).ssid ≠ cstr fullPending._receivedSSID) ∧
    (saveNetwork fullPending (some fullPending._receivedSSID)
      fullPending._receivedPassword).1 = false ∧
    cstr fullPending._fcmUrl = [] ∧
    cstr (processCommand fullPending fullFile CMD_SAVE_NETWORK (idleEnv 0)).1._fcmUrl
      = [117, 49] ∧
    (processCommand fullPending fullFile CMD_SAVE_NETWORK (idleEnv 0)).2.1 ≠ fullFile ∧
    (∃ doc, (processCommand fullPending fullFile CMD_SAVE_NETWORK (idleEnv 0)).2.1
        = .record doc ∧ doc.fcm_url = some [117, 49]) ∧
    (∃ doc, fullFile = .record doc ∧ doc.fcm_url = none) := by
  refine ⟨by decide, by decide, by decide, by decide, ?_, ?_, ?_, ⟨_, rfl, ?_⟩, ⟨_, rfl, ?_⟩⟩ <;>
    set_option maxRecDepth 100000 in decide

theorem saveNetwork_rejected (s : PicoFCMNotifierClass) (hfull : s._networkCount = 5)
    (hname : strlen s._receivedSSID ≠ 0)
    (hnone : ∀ i, i < s._networkCount → cstr (s.net i).ssid ≠ cstr s._receivedSSID) :
    saveNetwork s (some s._receivedSSID) s._receivedPassword = (false, s) := by
  have hidx := existingIndex_eq_none.mpr hnone
  exact saveNetwork_full s _ _ hname hidx (by rw [hfull]; decide)

/-- C23 (amended): when the store holds 5 entries and the non-empty pending name matches
none of them, the SaveNetwork command leaves slots, count, entries and status unchanged
and leaves an in-memory endpoint field unchanged when its pending buffer is empty. It
still runs `saveConfigToFlash`: when the file cannot be opened the object and the file are
unchanged; when the write succeeds the file holds a record whose networks list is the
list of the unchanged entries, and each endpoint field whose pending buffer is non-empty
is in the record and is the new in-memory value. -/
theorem C23_rejected_save_still_persists (s : PicoFCMNotifierClass) (file : ConfigFile)
    (env : Env) (hwf : WellFormed s) (hfull : s._networkCount = 5)
    (hname : strlen s._receivedSSID ≠ 0)
    (hnone : ∀ i, i < s._networkCount → cstr (s.net i).ssid ≠ cstr s._receivedSSID) :
    (processCommand s file CMD_SAVE_NETWORK env).1._networks = s._networks ∧
    (processCommand s file CMD_SAVE_NETWORK env).1._networkCount = s._networkCount ∧
    entries (processCommand s file CMD_SAVE_NETWORK env).1 = entries s ∧
    (processCommand s file CMD_SAVE_NETWORK env).1._status = s._status ∧
    (strlen s._receivedFcmUrl = 0 →
      (processCommand s file CMD_SAVE_NETWORK env).1._fcmUrl = s._fcmUrl) ∧
    (strlen s._receivedFcmToken = 0 →
      (processCommand s file CMD_SAVE_NETWORK env).1._fcmToken = s._fcmToken) ∧
    (env.openOk = false →
      (processCommand s file CMD_SAVE_NETWORK env).1 = s ∧
      (processCommand s file CMD_SAVE_NETWORK env).2.1 = file) ∧
    (env.openOk = true → env.written = true →
      ∃ doc, (processCommand s file CMD_SAVE_NETWORK env).2.1 = .record doc ∧
        doc.networks = (entries s).map
          (fun e => ({ ssid := some e.1, password := some e.2.1, enabled := some e.2.2 } :
            JsonNetwork)) ∧
        (strlen s._receivedFcmUrl ≠ 0 →
          doc.fcm_url = some (cstr s._receivedFcmUrl) ∧
          cstr (processCommand s file CMD_SAVE_NETWORK env).1._fcmUrl
            = cstr s._receivedFcmUrl) ∧
        (strlen s._receivedFcmToken ≠ 0 →
          doc.fcm_token = some (cstr s._receivedFcmToken) ∧
          cstr (processCommand s file CMD_SAVE_NETWORK env).1._fcmToken
            = cstr s._receivedFcmToken)) := by
  have hrej := saveNetwork_rejected s hfull hname hnone
  rw [processCommand_save s file env hname, hrej]
  obtain ⟨hn, hc, hst⟩ := saveConfigToFlash_store s file env.openOk env.written
  have hent : entries (saveConfigToFlash s file env.openOk env.written).2.1 = entries s := by
    unfold entries
    rw [hn, hc]
  refine ⟨hn, hc, hent, hst, ?_, ?_, ?_, ?_⟩
  · intro h0
    cases env.openOk <;> cases env.written <;> simp [saveConfigToFlash, h0]
  · intro h0
    cases env.openOk <;> cases env.written <;> simp [saveConfigToFlash, h0]
  · intro ho
    rw [ho]
    exact ⟨rfl, rfl⟩
  · intro ho hw
    rw [ho, hw]
    refine ⟨buildDocument s, rfl, ?_, ?_, ?_⟩
    · apply buildDocument_networks
      rw [hwf.1]
      exact hwf.2.1
    · intro hpos
      have hpos' : strlen s._receivedFcmUrl > 0 := Nat.pos_of_ne_zero hpos
      refine ⟨by simp [buildDocument, hpos'], ?_⟩
      show cstr (if strlen s._receivedFcmUrl > 0 then
        strncpy s._fcmUrl s._receivedFcmUrl MAX_FCM_URL_LENGTH else s._fcmUrl) = _
      rw [if_pos hpos', cstr_strncpy _ hwf.2.2.2.2.2.2.2.1]
      exact take_cap_cstr hwf.2.2.2.2.2.1
    · intro hpos
      have hpos' : strlen s._receivedFcmToken > 0 := Nat.pos_of_ne_zero hpos
      refine ⟨by simp [buildDocument, hpos'], ?_⟩
      show cstr (if strlen s._receivedFcmToken > 0 then
        strncpy s._fcmToken s._receivedFcmToken MAX_FCM_TOKEN_LENGTH else s._fcmToken) = _
      rw [if_pos hpos', cstr_strncpy _ hwf.2.2.2.2.2.2.2.2]
      exact take_cap_cstr hwf.2.2.2.2.2.2.1

/-- C23 (amended) on the full store with pending name "N6" and pending url "u1": the
entries and the count stay, the token stays empty, and the url "u1" reaches the memory. -/
theorem C23_rejected_save_still_persists_witness :
    WellFormed fullPending ∧ fullPending._networkCount = 5 ∧
    entries (processCommand fullPending fullFile CMD_SAVE_NETWORK (idleEnv 0)).1
      = entries fullPending ∧
    (processCommand fullPending fullFile CMD_SAVE_NETWORK (idleEnv 0)).1._networkCount = 5 ∧
    (processCommand fullPending fullFile CMD_SAVE_NETWORK (idleEnv 0)).1._fcmToken
      = fullPending._fcmToken :=
  have hwf : WellFormed fullPending := by
    set_option maxRecDepth 100000 in decide
  have h := C23_rejected_save_still_persists fullPending fullFile (idleEnv 0) hwf
    (by decide) (by decide) (by decide)
  ⟨hwf, by decide, h.2.2.1, h.2.1.trans rfl,
   h.2.2.2.2.2.1 (by set_option maxRecDepth 100000 in decide)⟩

/-! ## The timeout across the wrap of the millisecond counter -/

/-- C24: start time and clock are 32-bit values; the clock reads `(start + elapsed) mod
2^32` for a true elapsed time below 2^32 ms. A tick in status Connecting with a network
status that is neither connected nor a failure times out (status Failed and
`WiFi.disconnect` called) if and only if the elapsed time is more than 15000 ms. -/
theorem C24_timeout_across_wrap (s : PicoFCMNotifierClass) (lastReported : wl_status_t)
    (env : Env) (elapsed : Nat)
    (h : s._status = .PROVISION_CONNECTING)
    (hc : env.wifiStatus ≠ .WL_CONNECTED)
    (hf : env.wifiStatus ≠ .WL_CONNECT_FAILED) (hn : env.wifiStatus ≠ .WL_NO_SSID_AVAIL)
    (hstart : s._connectionStartTime < 4294967296) (hrange : elapsed < 4294967296)
    (hnow : env.millis = (s._connectionStartTime + elapsed) % 4294967296) :
    ((loop s lastReported env).1._status = .PROVISION_FAILED ∧
      Event.wifiDisconnect ∈ (loop s lastReported env).2.2) ↔ elapsed > 15000 := by
  have hsub : sub32 env.millis s._connectionStartTime = elapsed := by
    rw [hnow, sub32_elapsed _ _ hstart hrange]
  have hfail : ¬ (env.wifiStatus = .WL_CONNECT_FAILED ∨ env.wifiStatus = .WL_NO_SSID_AVAIL) := by
    simp [hf, hn]
  by_cases hlate : elapsed > 15000
  · have ht : sub32 env.millis s._connectionStartTime > WIFI_CONNECT_TIMEOUT_MS := by
      rw [hsub]; exact hlate
    rw [loop_timeout s lastReported env h hc hfail ht]
    simp only [hlate, iff_true]
    refine ⟨setStatus_status _ _, ?_⟩
    rw [loop_events_disconnect]
    simp
  · have ht : ¬ sub32 env.millis s._connectionStartTime > WIFI_CONNECT_TIMEOUT_MS := by
      rw [hsub]; exact hlate
    rw [loop_waiting s lastReported env h hc hfail ht]
    simp only [hlate, iff_false, not_and]
    intro hst
    rw [h] at hst
    cases hst

/-- C24 on an attempt started at counter value 4294967000, 296 ms before the wrap: at
counter value 14705 (15001 ms later) the tick times out, at 14704 (15000 ms later) it
does not. -/
theorem C24_timeout_across_wrap_witness :
    wrapStore._status = .PROVISION_CONNECTING ∧
    (idleEnv 14705).millis = (wrapStore._connectionStartTime + 15001) % 4294967296 ∧
    (loop wrapStore .WL_NO_SHIELD (idleEnv 14705)).1._status = .PROVISION_FAILED ∧
    Event.wifiDisconnect ∈ (loop wrapStore .WL_NO_SHIELD (idleEnv 14705)).2.2 ∧
    (loop wrapStore .WL_NO_SHIELD (idleEnv 14704)).1._status = .PROVISION_CONNECTING :=
  have h := (C24_timeout_across_wrap wrapStore .WL_NO_SHIELD (idleEnv 14705) 15001
    rfl (by decide) (by decide) (by decide) (by decide) (by decide) (by decide)).mpr
    (by decide)
  ⟨rfl, by decide, h.1, h.2, by decide⟩

/-! ## A tick outside a connection attempt -/

theorem loop_not_connecting (s : PicoFCMNotifierClass) (lastReported : wl_status_t)
    (env : Env) (h : s._status ≠ .PROVISION_CONNECTING) :
    loop s lastReported env =
      (s, env.wifiStatus,
       [.btstackLoop, .bleNotifyUpdate] ++
         wifiReport s._wifiStatusCallback lastReported env.wifiStatus) := by
  rw [loop_eq s lastReported env (s, []) (by simp [h])]
  simp only [List.append_nil]
  rfl

/-- C25: a tick of `loop` in a status other than Connecting returns the object unchanged
(status, start time, store, endpoint, staging buffers), whatever the network status
and the clock; `_status` is not assigned, the status callback is not invoked and
`WiFi.disconnect` is not called. -/
theorem C25_tick_outside_attempt (s : PicoFCMNotifierClass) (lastReported : wl_status_t)
    (env : Env) (h : s._status ≠ .PROVISION_CONNECTING) :
    (loop s lastReported env).1 = s ∧
    (loop s lastReported env).2.2.filter Event.isStatusAssigned = [] ∧
    (loop s lastReported env).2.2.filter Event.isStatusCallback = [] ∧
    Event.wifiDisconnect ∉ (loop s lastReported env).2.2 ∧
    (∀ e ∈ (loop s lastReported env).2.2,
      e = .btstackLoop ∨ e = .bleNotifyUpdate ∨
        ∃ callback, e = .wifiStatusCallback callback env.wifiStatus) := by
  rw [loop_not_connecting s lastReported env h]
  have e1 := loop_events_filter [] s._wifiStatusCallback lastReported env.wifiStatus
    Event.isStatusAssigned rfl rfl (fun _ _ => rfl)
  have e2 := loop_events_filter [] s._wifiStatusCallback lastReported env.wifiStatus
    Event.isStatusCallback rfl rfl (fun _ _ => rfl)
  have e3 := loop_events_disconnect [] s._wifiStatusCallback lastReported env.wifiStatus
  simp only [List.append_nil] at e1 e2 e3
  refine ⟨rfl, e1, e2, ?_, ?_⟩
  · show Event.wifiDisconnect ∉ _
    rw [e3]
    simp
  · intro e he
    simp only [List.mem_append, List.mem_cons, List.mem_singleton, List.not_mem_nil,
      or_false] at he
    rcases he with (he | he) | he
    · exact Or.inl he
    · exact Or.inr (Or.inl he)
    · right; right
      unfold wifiReport at he
      split at he
      · cases hcb : s._wifiStatusCallback with
        | none => rw [hcb] at he; simp at he
        | some cb =>
          rw [hcb] at he
          simp only [List.mem_singleton] at he
          exact ⟨cb, he⟩
      · simp at he

/-- C25 on the store in status Connected when the network reports the connection lost,
at time 99999: the status stays Connected and nothing about the attempt is called. -/
theorem C25_tick_outside_attempt_witness :
    connectedStore._status ≠ .PROVISION_CONNECTING ∧
    (loop connectedStore .WL_CONNECTED
      { idleEnv 99999 with wifiStatus := .WL_CONNECTION_LOST }).1 = connectedStore ∧
    (loop connectedStore .WL_CONNECTED
      { idleEnv 99999 with wifiStatus := .WL_CONNECTION_LOST }).1._status
        = .PROVISION_CONNECTED ∧
    Event.wifiDisconnect ∉ (loop connectedStore .WL_CONNECTED
      { idleEnv 99999 with wifiStatus := .WL_CONNECTION_LOST }).2.2 :=
  have h := C25_tick_outside_attempt connectedStore .WL_CONNECTED
    { idleEnv 99999 with wifiStatus := .WL_CONNECTION_LOST } (by decide)
  ⟨by decide, h.1, (congrArg PicoFCMNotifierClass._status h.1).trans rfl, h.2.2.2.1⟩

end PicoFCM
